import Mathlib

/-!
Shallow embedding of the `tui-rs` session controller (src/tui-rs/src/app.rs,
state.rs, models.rs, api.rs) of the dev-pipeline repository, together with
theorems settling the specification claims about it.

The remote gateway is modelled as a structure of response values
(`Except ApiError data`), one per API operation; every state-mutating
operation of the controller becomes a function `Gateway → AppState →
AppState × List Call` where the second component is the trace of remote
calls issued, in order.  Machine integers (`i64`, `i32`, `usize`) are
modelled as `Int`/`Nat`; overflow cannot occur for the list lengths and
indices involved.
-/

set_option maxRecDepth 4096

namespace Tui

/-- Mirrors `serde_json::Value`, which the controller treats opaquely
(`queue_stats` field and action response bodies). `null` is the `Default`. -/
inductive JsonValue where
  | null : JsonValue
  | raw : String → JsonValue
deriving DecidableEq, Repr, Inhabited

/-- Mirrors `ApiError` in api.rs: `Http { status, message }`,
`Transport(reqwest::Error)` (carrying its display message), `Unexpected`. -/
inductive ApiError where
  | http : Nat → String → ApiError
  | transport : String → ApiError
  | unexpected : ApiError
deriving DecidableEq, Repr

/-- The `thiserror`-derived `Display` of `ApiError`, used by
`err.to_string()` in `App::set_error`. -/
def errString : ApiError → String
  | .http status message => "http error " ++ toString status ++ ": " ++ message
  | .transport m => "transport error: " ++ m
  | .unexpected => "unexpected response shape"

/-- Mirrors `models::Project`. -/
structure Project where
  id : Int
  name : String
  gitUrl : Option String := none
  baseBranch : Option String := none
  updatedAt : Option String := none
deriving DecidableEq, Repr, Inhabited

/-- Mirrors `models::ProtocolRun`. -/
structure ProtocolRun where
  id : Int
  projectId : Int
  protocolName : String
  status : Option String := none
  baseBranch : Option String := none
  description : Option String := none
  updatedAt : Option String := none
deriving DecidableEq, Repr, Inhabited

/-- Mirrors `models::StepRun`. -/
structure StepRun where
  id : Int
  protocolRunId : Int
  stepIndex : Int
  stepName : String
  stepType : Option String := none
  status : String
  retries : Int := 0
  summary : Option String := none
deriving DecidableEq, Repr, Inhabited

/-- Mirrors `models::Event`. -/
structure Event where
  id : Int
  protocolRunId : Int
  stepRunId : Option Int := none
  eventType : String
  message : String
  createdAt : String
  metadata : Option JsonValue := none
  protocolName : Option String := none
  projectId : Option Int := none
  projectName : Option String := none
deriving DecidableEq, Repr, Inhabited

/-- Mirrors `models::QueueJob` (timestamps kept as display strings). -/
structure QueueJob where
  jobId : Option String := none
  status : Option String := none
  enqueuedAt : Option String := none
  startedAt : Option String := none
  endedAt : Option String := none
  payload : Option JsonValue := none
deriving DecidableEq, Repr, Inhabited

/-- Mirrors `models::BranchList`. -/
structure BranchList where
  branches : List String := []
deriving DecidableEq, Repr, Inhabited

/-- Mirrors `state::Page`. -/
inductive Page where
  | dashboard | projects | protocols | steps | events | queues | settings
deriving DecidableEq, Repr, Inhabited

/-- `Page::next` in state.rs. -/
def Page.next : Page → Page
  | .dashboard => .projects
  | .projects => .protocols
  | .protocols => .steps
  | .steps => .events
  | .events => .queues
  | .queues => .settings
  | .settings => .dashboard

/-- `Page::prev` in state.rs. -/
def Page.prev : Page → Page
  | .dashboard => .settings
  | .projects => .dashboard
  | .protocols => .projects
  | .steps => .protocols
  | .events => .steps
  | .queues => .events
  | .settings => .queues

/-- Mirrors `app::Screen`. -/
inductive Screen where
  | welcome | login | menu | settingsInfo | help | version | dashboard
deriving DecidableEq, Repr, Inhabited

/-- Mirrors `state::AppState`. -/
structure AppState where
  page : Page := .dashboard
  projects : List Project := []
  projectIndex : Option Nat := none
  protocols : List ProtocolRun := []
  protocolIndex : Option Nat := none
  steps : List StepRun := []
  stepIndex : Option Nat := none
  stepFilter : Option String := none
  events : List Event := []
  eventIndex : Option Nat := none
  recentEvents : List Event := []
  recentEventIndex : Option Nat := none
  queueStats : JsonValue := .null
  queueJobs : List QueueJob := []
  branches : List String := []
  branchIndex : Option Nat := none
  jobStatusFilter : Option String := none
  status : String := ""
  lastError : Option String := none
  refreshing : Bool := false
deriving DecidableEq, Repr, Inhabited

/-- `move_index` in state.rs: `None` when the list is empty, otherwise the
previous index (or 0) plus `delta`, clamped into `[0, len-1]`. -/
def moveIndex (current : Option Nat) (len : Nat) (delta : Int) : Option Nat :=
  if len = 0 then none
  else
    let idx : Int := (current.getD 0 : Nat) + delta
    let idx : Int := max 0 (min idx ((len : Int) - 1))
    some idx.toNat

/-- `AppState::select_project`. -/
def selectProject (delta : Int) (s : AppState) : AppState :=
  { s with projectIndex := moveIndex s.projectIndex s.projects.length delta }

/-- `AppState::select_protocol`. -/
def selectProtocol (delta : Int) (s : AppState) : AppState :=
  { s with protocolIndex := moveIndex s.protocolIndex s.protocols.length delta }

/-- `AppState::select_step`. -/
def selectStep (delta : Int) (s : AppState) : AppState :=
  { s with stepIndex := moveIndex s.stepIndex s.steps.length delta }

/-- `AppState::select_event`. -/
def selectEvent (delta : Int) (s : AppState) : AppState :=
  { s with eventIndex := moveIndex s.eventIndex s.events.length delta }

/-- `AppState::select_branch`. -/
def selectBranch (delta : Int) (s : AppState) : AppState :=
  { s with branchIndex := moveIndex s.branchIndex s.branches.length delta }

/-- `AppState::selected_project_id`. -/
def selectedProjectId (s : AppState) : Option Int :=
  (s.projectIndex.bind fun idx => s.projects.get? idx).map (·.id)

/-- `AppState::selected_protocol_id`. -/
def selectedProtocolId (s : AppState) : Option Int :=
  (s.protocolIndex.bind fun idx => s.protocols.get? idx).map (·.id)

/-- `AppState::selected_step_id`. -/
def selectedStepId (s : AppState) : Option Int :=
  (s.stepIndex.bind fun idx => s.steps.get? idx).map (·.id)

/-- The repeated pattern `index.map(|idx| idx >= len).unwrap_or(true)` from
the load functions in app.rs: true when no index is set or it is out of
range for the new list. -/
def outOfRange (prior : Option Nat) (len : Nat) : Bool :=
  match prior with
  | some idx => len ≤ idx
  | none => true

/-- Index reset used by `load_projects`, `load_protocols`,
`load_recent_events`, `load_branches`: empty list → `None`; stale or
missing index → `Some(0)`; otherwise keep the index. -/
def resetFirst (prior : Option Nat) (len : Nat) : Option Nat :=
  if len = 0 then none
  else if outOfRange prior len then some 0 else prior

/-- Index reset used by `load_steps` and `load_events`: empty list →
`None`; stale or missing index → `Some(len-1)`; otherwise keep. -/
def resetLast (prior : Option Nat) (len : Nat) : Option Nat :=
  if len = 0 then none
  else if outOfRange prior len then some (len - 1) else prior

/-- One remote call as issued by `ApiClient` in api.rs: the operation
requested together with its arguments. -/
inductive Call where
  | projects : Call
  | protocols : Int → Call
  | steps : Int → Call
  | events : Int → Call
  | recentEvents : Nat → Call
  | queueStats : Call
  | queueJobs : Option String → Call
  | branches : Int → Call
  | createProject : String → String → String → Call
  | createProtocol : Int → String → String → Option String → Call
  | deleteBranch : Int → String → Call
  | importCodemachine : Int → String → String → String → Option String → Bool → Call
  | specAudit : Option Int → Option Int → Bool → Option Int → Call
  | protocolAction : Int → String → Call
  | protocolOpenPr : Int → Call
  | stepRunNext : Int → Call
  | stepRetryLatest : Int → Call
  | stepRunQa : Int → Call
  | stepApprove : Int → Call
deriving DecidableEq, Repr

/-- The remote gateway (`ApiClient`), modelled as the responses it would
give to each operation during one processing step: every operation is
independently fallible with an `ApiError`. -/
structure Gateway where
  projects : Except ApiError (List Project)
  protocols : Int → Except ApiError (List ProtocolRun)
  steps : Int → Except ApiError (List StepRun)
  events : Int → Except ApiError (List Event)
  recentEvents : Nat → Except ApiError (List Event)
  queueStats : Except ApiError JsonValue
  queueJobs : Option String → Except ApiError (List QueueJob)
  branches : Int → Except ApiError BranchList
  createProject : String → String → String → Except ApiError Project
  createProtocol : Int → String → String → Option String → Except ApiError ProtocolRun
  deleteBranch : Int → String → Except ApiError JsonValue
  importCodemachine : Int → String → String → String → Option String → Bool →
      Except ApiError JsonValue
  specAudit : Option Int → Option Int → Bool → Option Int → Except ApiError JsonValue
  protocolAction : Int → String → Except ApiError JsonValue
  protocolOpenPr : Int → Except ApiError JsonValue
  stepRunNext : Int → Except ApiError JsonValue
  stepRetryLatest : Int → Except ApiError JsonValue
  stepRunQa : Int → Except ApiError JsonValue
  stepApprove : Int → Except ApiError JsonValue

/-- `App::set_error`: records the error's display string in the shared
last-error slot. -/
def setError (e : ApiError) (s : AppState) : AppState :=
  { s with lastError := some (errString e) }

/-- Sequencing of two traced state transformers: run the second on the
first's state, concatenating the call traces. -/
def seqS (a : AppState × List Call) (f : AppState → AppState × List Call) :
    AppState × List Call :=
  ((f a.1).1, a.2 ++ (f a.1).2)

/-- `App::load_projects`: fetch the project list; on success replace it and
reset a stale index to `Some(0)` (or `None` if empty); on failure record
the error and leave the cached list untouched. -/
def loadProjects (gw : Gateway) (s : AppState) : AppState × List Call :=
  (match gw.projects with
   | .ok data =>
     { s with projects := data, projectIndex := resetFirst s.projectIndex data.length }
   | .error e => setError e s,
   [Call.projects])

/-- `App::load_protocols`: with no project selected, clear the list and the
index without calling the gateway; otherwise fetch the protocols of the
selected project. -/
def loadProtocols (gw : Gateway) (s : AppState) : AppState × List Call :=
  match selectedProjectId s with
  | none => ({ s with protocols := [], protocolIndex := none }, [])
  | some pid =>
    (match gw.protocols pid with
     | .ok data =>
       { s with protocols := data, protocolIndex := resetFirst s.protocolIndex data.length }
     | .error e => setError e s,
     [Call.protocols pid])

/-- `App::load_steps`: with no protocol selected, clear; otherwise fetch,
keep only the steps matching `step_filter`, and reset a stale index to the
last position. -/
def loadSteps (gw : Gateway) (s : AppState) : AppState × List Call :=
  match selectedProtocolId s with
  | none => ({ s with steps := [], stepIndex := none }, [])
  | some prid =>
    (match gw.steps prid with
     | .ok data =>
       let filtered := data.filter fun st =>
         match s.stepFilter with
         | some f => st.status == f
         | none => true
       { s with steps := filtered, stepIndex := resetLast s.stepIndex filtered.length }
     | .error e => setError e s,
     [Call.steps prid])

/-- `App::load_events`: scoped to the selected protocol; stale index resets
to the last position. -/
def loadEvents (gw : Gateway) (s : AppState) : AppState × List Call :=
  match selectedProtocolId s with
  | none => ({ s with events := [], eventIndex := none }, [])
  | some prid =>
    (match gw.events prid with
     | .ok data =>
       { s with events := data, eventIndex := resetLast s.eventIndex data.length }
     | .error e => setError e s,
     [Call.events prid])

/-- `App::load_recent_events`: global fetch of the 50 newest events; stale
index resets to `Some(0)`. -/
def loadRecentEvents (gw : Gateway) (s : AppState) : AppState × List Call :=
  (match gw.recentEvents 50 with
   | .ok data =>
     { s with recentEvents := data,
              recentEventIndex := resetFirst s.recentEventIndex data.length }
   | .error e => setError e s,
   [Call.recentEvents 50])

/-- `App::load_queue`: fetch the queue statistics, then the queue jobs
under the current job-status filter; each half independently fallible. -/
def loadQueue (gw : Gateway) (s : AppState) : AppState × List Call :=
  let s1 := match gw.queueStats with
    | .ok v => { s with queueStats := v }
    | .error e => setError e s
  let s2 := match gw.queueJobs s1.jobStatusFilter with
    | .ok data => { s1 with queueJobs := data }
    | .error e => setError e s1
  (s2, [Call.queueStats, Call.queueJobs s1.jobStatusFilter])

/-- `App::load_branches`: scoped to the selected project; stale index
resets to `Some(0)`. -/
def loadBranches (gw : Gateway) (s : AppState) : AppState × List Call :=
  match selectedProjectId s with
  | none => ({ s with branches := [], branchIndex := none }, [])
  | some pid =>
    (match gw.branches pid with
     | .ok list =>
       { s with branches := list.branches,
                branchIndex := resetFirst s.branchIndex list.branches.length }
     | .error e => setError e s,
     [Call.branches pid])

/-- `App::refresh_all`: no-op off the dashboard screen; otherwise clear the
last error, set the "Refreshing..." status, run all eight fetches in fixed
order (each independently fallible), and finish with the elapsed-time
status (`ms` stands in for the measured wall-clock milliseconds). -/
def refreshAll (gw : Gateway) (ms : Nat) (screen : Screen) (s : AppState) :
    AppState × List Call :=
  if screen = Screen.dashboard then
    let s0 := { s with refreshing := true, lastError := none, status := "Refreshing..." }
    let r := seqS (seqS (seqS (seqS (seqS (seqS (loadProjects gw s0)
      (loadProtocols gw)) (loadSteps gw)) (loadEvents gw)) (loadRecentEvents gw))
      (loadQueue gw)) (loadBranches gw)
    ({ r.1 with refreshing := false,
                status := "Refreshed in " ++ toString ms ++ "ms" }, r.2)
  else (s, [])

/-- `App::refresh_scoped` (the timer-tick handler body): currently exactly
`refresh_all`. -/
def refreshScoped (gw : Gateway) (ms : Nat) (screen : Screen) (s : AppState) :
    AppState × List Call :=
  refreshAll gw ms screen s

/-- `App::refresh_selection`: the selection-change cascade; which loads run
depends only on the active page. -/
def refreshSelection (gw : Gateway) (s : AppState) : AppState × List Call :=
  match s.page with
  | .dashboard | .projects =>
    seqS (seqS (seqS (loadProtocols gw s) (loadSteps gw)) (loadEvents gw))
      (loadBranches gw)
  | .protocols => seqS (loadSteps gw s) (loadEvents gw)
  | .steps => loadEvents gw s
  | _ => (s, [])

/-- Mirrors `app::InputField`. -/
structure InputField where
  label : String
  value : String
  isSecret : Bool := false
deriving DecidableEq, Repr, Inhabited

/-- Mirrors `app::ModalAction`. -/
inductive ModalAction where
  | createProject | createProtocol | specAudit | importCodeMachine
  | tokenConfig | deleteBranch
deriving DecidableEq, Repr

/-- Rust's `str::trim`: the string without leading and trailing
whitespace. -/
def trimS (str : String) : String :=
  ⟨((str.data.dropWhile Char.isWhitespace).reverse.dropWhile
      Char.isWhitespace).reverse⟩

/-- Rust's `str::parse::<i64>`: optional sign followed by at least one
ASCII digit (overflow, impossible at the ids involved, is not modelled). -/
def parseI64 (str : String) : Option Int :=
  match str.data with
  | [] => none
  | c :: rest =>
    let (neg, digits) :=
      if c = '-' then (true, rest)
      else if c = '+' then (false, rest)
      else (false, c :: rest)
    if digits.isEmpty ∨ ¬ digits.all Char.isDigit then none
    else
      let n : Nat := digits.foldl (fun acc d => acc * 10 + (d.toNat - 48)) 0
      some (if neg then -(n : Int) else (n : Int))

/-- Rust's `value.trim().to_lowercase().starts_with('y')` pattern from the
boolean form fields. -/
def startsWithY (str : String) : Bool :=
  match str.data with
  | c :: _ => c.toLower = 'y'
  | [] => false

/-- `App::handle_form_submit` in app.rs: dispatch on the bound modal
action using a snapshot of the form fields.  The returned trace lists the
remote calls issued (validation failures and missing preconditions issue
none). `ms` is the wall-clock stand-in forwarded to any `refresh_all` the
action triggers, and `screen` is the active screen at submission time. -/
def handleFormSubmit (gw : Gateway) (ms : Nat) (screen : Screen)
    (action : ModalAction) (fields : List InputField) (s : AppState) :
    AppState × List Call :=
  match action with
  | .createProject =>
    match fields with
    | f0 :: f1 :: f2 :: _ =>
      let name := (trimS f0.value)
      let git := (trimS f1.value)
      let branch := (trimS f2.value)
      if name = "" ∨ git = "" then
        ({ s with lastError := some "Name and Git URL required" }, [])
      else
        let br := if branch = "" then "main" else branch
        match gw.createProject name git br with
        | .ok proj =>
          let s1 := { s with status := "Created project " ++ toString proj.id }
          let r := refreshAll gw ms screen s1
          (r.1, Call.createProject name git br :: r.2)
        | .error e => (setError e s, [Call.createProject name git br])
    | _ => (s, [])
  | .createProtocol =>
    match selectedProjectId s with
    | some pid =>
      match fields with
      | f0 :: f1 :: f2 :: _ =>
        let name := (trimS f0.value)
        let branch := (trimS f1.value)
        let desc := (trimS f2.value)
        if name = "" then
          ({ s with lastError := some "Protocol name required" }, [])
        else
          let br := if branch = "" then "main" else branch
          let d := if desc = "" then none else some desc
          match gw.createProtocol pid name br d with
          | .ok run =>
            let s1 := { s with protocolIndex := none,
                               status := "Created protocol " ++ toString run.id }
            let r := refreshAll gw ms screen s1
            (r.1, Call.createProtocol pid name br d :: r.2)
          | .error e => (setError e s, [Call.createProtocol pid name br d])
      | _ => (s, [])
    | none => ({ s with lastError := some "Select a project first" }, [])
  | .specAudit =>
    let projectId := (fields.get? 0).bind fun f => parseI64 ((trimS f.value))
    let protocolId := (fields.get? 1).bind fun f => parseI64 ((trimS f.value))
    let backfill := ((fields.get? 2).map fun f => startsWithY ((trimS f.value))).getD false
    let interval := (fields.get? 3).bind fun f => parseI64 ((trimS f.value))
    match gw.specAudit projectId protocolId backfill interval with
    | .ok _ =>
      ({ s with status := "Spec audit enqueued" },
       [Call.specAudit projectId protocolId backfill interval])
    | .error e =>
      (setError e s, [Call.specAudit projectId protocolId backfill interval])
  | .importCodeMachine =>
    match selectedProjectId s with
    | some pid =>
      match fields with
      | f0 :: f1 :: f2 :: f3 :: f4 :: _ =>
        let name := (trimS f0.value)
        let path := (trimS f1.value)
        let branch := (trimS f2.value)
        let desc := (trimS f3.value)
        let enqueue := startsWithY ((trimS f4.value))
        if name = "" ∨ path = "" then
          ({ s with lastError := some "Protocol name and workspace path required" }, [])
        else
          let br := if branch = "" then "main" else branch
          let d := if desc = "" then none else some desc
          match gw.importCodemachine pid name path br d enqueue with
          | .ok _ =>
            let s1 := { s with status := "Import enqueued" }
            let r := refreshAll gw ms screen s1
            (r.1, Call.importCodemachine pid name path br d enqueue :: r.2)
          | .error e =>
            (setError e s, [Call.importCodemachine pid name path br d enqueue])
      | _ => (s, [])
    | none => ({ s with lastError := some "Select a project first" }, [])
  | .tokenConfig =>
    match fields with
    | f0 :: _ :: _ :: _ =>
      let apiBase := (trimS f0.value)
      if apiBase ≠ "" then
        ({ s with status := "API base set to " ++ apiBase }, [])
      else (s, [])
    | _ => (s, [])
  | .deleteBranch =>
    match s.branchIndex with
    | some idx =>
      match s.branches.get? idx, selectedProjectId s with
      | some branch, some pid =>
        match gw.deleteBranch pid branch with
        | .ok _ =>
          let s1 := { s with status := "Deleted branch " ++ branch }
          let r := loadBranches gw s1
          (r.1, Call.deleteBranch pid branch :: r.2)
        | .error e => (setError e s, [Call.deleteBranch pid branch])
      | _, _ => (s, [])
    | none => (s, [])

/-- `App::run_qa_latest`: silently does nothing when the cached Steps list
is empty; otherwise sends run-QA for the LAST cached step and on success
sets the status and triggers a full refresh. -/
def runQaLatest (gw : Gateway) (ms : Nat) (screen : Screen) (s : AppState) :
    AppState × List Call :=
  match s.steps.getLast? with
  | some step =>
    match gw.stepRunQa step.id with
    | .ok _ =>
      let s1 := { s with status := "QA enqueued" }
      let r := refreshAll gw ms screen s1
      (r.1, Call.stepRunQa step.id :: r.2)
    | .error e => (setError e s, [Call.stepRunQa step.id])
  | none => (s, [])

/-- `App::approve_latest`: same shape as `run_qa_latest` with the approve
endpoint and the "Approved" status. -/
def approveLatest (gw : Gateway) (ms : Nat) (screen : Screen) (s : AppState) :
    AppState × List Call :=
  match s.steps.getLast? with
  | some step =>
    match gw.stepApprove step.id with
    | .ok _ =>
      let s1 := { s with status := "Approved" }
      let r := refreshAll gw ms screen s1
      (r.1, Call.stepApprove step.id :: r.2)
    | .error e => (setError e s, [Call.stepApprove step.id])
  | none => (s, [])

/-- The fixed cycling order of `cycle_step_filter` in app.rs. -/
def stepFilterOrder : List (Option String) :=
  [none, some "pending", some "running", some "needs_qa", some "failed"]

/-- The successor computation inside `cycle_step_filter`: position of the
current filter in the order (0 when absent), then the next entry
cyclically. -/
def nextStepFilter (f : Option String) : Option String :=
  let idx := (stepFilterOrder.findIdx? fun v => v == f).getD 0
  (stepFilterOrder.get? ((idx + 1) % stepFilterOrder.length)).getD none

/-- `App::cycle_step_filter`: advance the filter, set the status line, and
reload only the Steps list. -/
def cycleStepFilter (gw : Gateway) (s : AppState) : AppState × List Call :=
  let next := nextStepFilter s.stepFilter
  let s1 := { s with stepFilter := next,
                     status := "Step filter: " ++ next.getD "all" }
  loadSteps gw s1

/-- The Tab arm of `handle_key`: advance the dashboard page. -/
def tabKey (s : AppState) : AppState := { s with page := s.page.next }

/-- The BackTab arm of `handle_key`: previous dashboard page. -/
def backTabKey (s : AppState) : AppState := { s with page := s.page.prev }

/-- The digit-key arms of `handle_key`: jump directly to a page. -/
def jumpPage (p : Page) (s : AppState) : AppState := { s with page := p }

/-- `App::handle_down`: move the page-appropriate selection down by one. -/
def handleDown (s : AppState) : AppState :=
  match s.page with
  | .dashboard | .projects => selectProject 1 s
  | .protocols => selectProtocol 1 s
  | .steps => selectStep 1 s
  | .events => selectEvent 1 s
  | .queues =>
    match s.branchIndex with
    | some idx =>
      { s with branchIndex := some (min (idx + 1) (s.branches.length - 1)) }
    | none => s
  | _ => s

/-- `App::handle_up`: move the page-appropriate selection up by one. -/
def handleUp (s : AppState) : AppState :=
  match s.page with
  | .dashboard | .projects => selectProject (-1) s
  | .protocols => selectProtocol (-1) s
  | .steps => selectStep (-1) s
  | .events => selectEvent (-1) s
  | .queues =>
    match s.branchIndex with
    | some idx => { s with branchIndex := some (idx - 1) }
    | none => s
  | _ => s

/-- The ResourceList invariant of the spec: the selection is `None` iff
the list is empty, otherwise a valid index. -/
def listInv (sel : Option Nat) (len : Nat) : Prop :=
  match sel with
  | none => len = 0
  | some i => i < len

theorem listInv_none_iff (sel : Option Nat) (len : Nat) (h : listInv sel len) :
    sel = none ↔ len = 0 := by
  cases sel with
  | none => simpa [listInv] using h
  | some i =>
    simp only [listInv] at h
    simp
    omega

theorem listInv_moveIndex (cur : Option Nat) (len : Nat) (delta : Int) :
    listInv (moveIndex cur len delta) len := by
  unfold moveIndex
  by_cases h : len = 0
  · simp [h, listInv]
  · simp only [h, if_false, listInv]
    omega

theorem listInv_resetFirst (p : Option Nat) (n : Nat) :
    listInv (resetFirst p n) n := by
  unfold resetFirst outOfRange
  by_cases h : n = 0
  · simp [h, listInv]
  · cases p with
    | none => simp [h, listInv]; omega
    | some i =>
      by_cases hi : n ≤ i
      · simp [h, hi, listInv]; omega
      · simp [h, hi, listInv]; omega

theorem listInv_resetLast (p : Option Nat) (n : Nat) :
    listInv (resetLast p n) n := by
  unfold resetLast outOfRange
  by_cases h : n = 0
  · simp [h, listInv]
  · cases p with
    | none => simp [h, listInv]; omega
    | some i =>
      by_cases hi : n ≤ i
      · simp [h, hi, listInv]; omega
      · simp [h, hi, listInv]; omega

/-- C1: for every resource list, a `move(delta)` (the `select_*` family,
all built on `move_index`) and a wholesale replacement (the `load_*`
family, whenever the underlying fetch succeeds; the scoped loads also
count their clear-on-unselected reset as replacement) leave the selection
`None` iff the list is empty and otherwise a valid index `< len`. -/
theorem C1_selection_invariant (s : AppState) (gw : Gateway) (delta : Int)
    (hp : ∃ d, gw.projects = Except.ok d)
    (hpr : ∀ pid, ∃ d, gw.protocols pid = Except.ok d)
    (hst : ∀ prid, ∃ d, gw.steps prid = Except.ok d)
    (hev : ∀ prid, ∃ d, gw.events prid = Except.ok d)
    (hre : ∃ d, gw.recentEvents 50 = Except.ok d)
    (hbr : ∀ pid, ∃ d, gw.branches pid = Except.ok d) :
    listInv (selectProject delta s).projectIndex s.projects.length
    ∧ listInv (selectProtocol delta s).protocolIndex s.protocols.length
    ∧ listInv (selectStep delta s).stepIndex s.steps.length
    ∧ listInv (selectEvent delta s).eventIndex s.events.length
    ∧ listInv (selectBranch delta s).branchIndex s.branches.length
    ∧ listInv (loadProjects gw s).1.projectIndex
        (loadProjects gw s).1.projects.length
    ∧ listInv (loadProtocols gw s).1.protocolIndex
        (loadProtocols gw s).1.protocols.length
    ∧ listInv (loadSteps gw s).1.stepIndex (loadSteps gw s).1.steps.length
    ∧ listInv (loadEvents gw s).1.eventIndex (loadEvents gw s).1.events.length
    ∧ listInv (loadRecentEvents gw s).1.recentEventIndex
        (loadRecentEvents gw s).1.recentEvents.length
    ∧ listInv (loadBranches gw s).1.branchIndex
        (loadBranches gw s).1.branches.length := by
  obtain ⟨dp, hdp⟩ := hp
  obtain ⟨dre, hdre⟩ := hre
  refine ⟨listInv_moveIndex _ _ _, listInv_moveIndex _ _ _, listInv_moveIndex _ _ _,
    listInv_moveIndex _ _ _, listInv_moveIndex _ _ _, ?_, ?_, ?_, ?_, ?_, ?_⟩
  · simp only [loadProjects, hdp]
    exact listInv_resetFirst _ _
  · cases h : selectedProjectId s with
    | none => simp [loadProtocols, h, listInv]
    | some pid =>
      obtain ⟨d, hd⟩ := hpr pid
      simp only [loadProtocols, h, hd]
      exact listInv_resetFirst _ _
  · cases h : selectedProtocolId s with
    | none => simp [loadSteps, h, listInv]
    | some prid =>
      obtain ⟨d, hd⟩ := hst prid
      simp only [loadSteps, h, hd]
      exact listInv_resetLast _ _
  · cases h : selectedProtocolId s with
    | none => simp [loadEvents, h, listInv]
    | some prid =>
      obtain ⟨d, hd⟩ := hev prid
      simp only [loadEvents, h, hd]
      exact listInv_resetLast _ _
  · simp only [loadRecentEvents, hdre]
    exact listInv_resetFirst _ _
  · cases h : selectedProjectId s with
    | none => simp [loadBranches, h, listInv]
    | some pid =>
      obtain ⟨d, hd⟩ := hbr pid
      simp only [loadBranches, h, hd]
      exact listInv_resetFirst _ _

/-- Concrete project used by the witnesses. -/
def pA : Project := { id := 1, name := "A" }

/-- Concrete protocol run used by the witnesses. -/
def prB : ProtocolRun :=
  { id := 10, projectId := 1, protocolName := "p", status := some "pending" }

/-- Concrete step-run builder used by the witnesses. -/
def mkStep (i : Int) (st : String) : StepRun :=
  { id := i, protocolRunId := 10, stepIndex := 0, stepName := "s", status := st }

/-- Concrete event used by the witnesses. -/
def evE : Event :=
  { id := 100, protocolRunId := 10, eventType := "log", message := "m",
    createdAt := "t" }

/-- A gateway on which every operation succeeds, used by the witnesses. -/
def gwOk : Gateway where
  projects := .ok [pA]
  protocols := fun _ => .ok [prB]
  steps := fun _ => .ok [mkStep 7 "pending", mkStep 8 "running"]
  events := fun _ => .ok [evE]
  recentEvents := fun _ => .ok [evE]
  queueStats := .ok (.raw "stats")
  queueJobs := fun _ => .ok [{ jobId := some "j1", status := some "queued" }]
  branches := fun _ => .ok ⟨["main", "dev"]⟩
  createProject := fun _ _ _ => .ok pA
  createProtocol := fun _ _ _ _ => .ok prB
  deleteBranch := fun _ _ => .ok .null
  importCodemachine := fun _ _ _ _ _ _ => .ok .null
  specAudit := fun _ _ _ _ => .ok .null
  protocolAction := fun _ _ => .ok .null
  protocolOpenPr := fun _ => .ok .null
  stepRunNext := fun _ => .ok .null
  stepRetryLatest := fun _ => .ok .null
  stepApprove := fun _ => .ok .null
  stepRunQa := fun _ => .ok .null

/-- A populated dashboard state used by the witnesses. -/
def stP : AppState :=
  { page := .projects, projects := [pA], projectIndex := some 0,
    protocols := [prB], protocolIndex := some 0,
    steps := [mkStep 7 "pending", mkStep 8 "running"], stepIndex := some 0,
    events := [evE], eventIndex := some 0,
    branches := ["main", "dev"], branchIndex := some 0,
    status := "Ready" }

theorem C1_selection_invariant_witness :
    listInv (selectProject 1 stP).projectIndex stP.projects.length
    ∧ listInv (selectProtocol 1 stP).protocolIndex stP.protocols.length
    ∧ listInv (selectStep 1 stP).stepIndex stP.steps.length
    ∧ listInv (selectEvent 1 stP).eventIndex stP.events.length
    ∧ listInv (selectBranch 1 stP).branchIndex stP.branches.length
    ∧ listInv (loadProjects gwOk stP).1.projectIndex
        (loadProjects gwOk stP).1.projects.length
    ∧ listInv (loadProtocols gwOk stP).1.protocolIndex
        (loadProtocols gwOk stP).1.protocols.length
    ∧ listInv (loadSteps gwOk stP).1.stepIndex (loadSteps gwOk stP).1.steps.length
    ∧ listInv (loadEvents gwOk stP).1.eventIndex
        (loadEvents gwOk stP).1.events.length
    ∧ listInv (loadRecentEvents gwOk stP).1.recentEventIndex
        (loadRecentEvents gwOk stP).1.recentEvents.length
    ∧ listInv (loadBranches gwOk stP).1.branchIndex
        (loadBranches gwOk stP).1.branches.length :=
  C1_selection_invariant stP gwOk 1 ⟨_, rfl⟩ (fun _ => ⟨_, rfl⟩)
    (fun _ => ⟨_, rfl⟩) (fun _ => ⟨_, rfl⟩) ⟨_, rfl⟩ (fun _ => ⟨_, rfl⟩)

/-- Concrete error used by the witnesses. -/
def eBoom : ApiError := .http 500 "boom"

/-- Gateway whose protocols fetch fails while everything else succeeds. -/
def gwPF : Gateway := { gwOk with protocols := fun _ => .error eBoom }

/-- A fresh dashboard state with empty caches, used by counterexamples. -/
def stDash : AppState := { status := "Ready" }

/-- The spec-audit form fields used by the C3 counterexample. -/
def specFieldsW : List InputField :=
  [{ label := "Project ID (optional)", value := "1" },
   { label := "Protocol ID (optional)", value := "10" },
   { label := "Backfill? (y/N)", value := "y" },
   { label := "Interval seconds (optional)", value := "" }]

/-- C3 counterexample: the claim says every bound modal action except
configure-gateway triggers `refresh_all` on success.  Submitting the
spec-audit form succeeds (the status message is set) yet the trace holds
only the audit call itself — no fetch of the refresh sequence is issued,
and the empty cached project list stays empty even though `refresh_all`
on the very same state and gateway would repopulate it.  (`delete-branch`
likewise reloads only Branches instead of running `refresh_all`.) -/
theorem C3_counterexample :
    (handleFormSubmit gwOk 3 Screen.dashboard ModalAction.specAudit
        specFieldsW stDash).1.status = "Spec audit enqueued"
    ∧ (handleFormSubmit gwOk 3 Screen.dashboard ModalAction.specAudit
        specFieldsW stDash).2 = [Call.specAudit (some 1) (some 10) true none]
    ∧ (handleFormSubmit gwOk 3 Screen.dashboard ModalAction.specAudit
        specFieldsW stDash).1.projects = []
    ∧ (refreshAll gwOk 3 Screen.dashboard stDash).1.projects = [pA] :=
  ⟨by decide, by decide, by decide, by decide⟩

/-- C3 amended: create-project, create-protocol and
import-external-workspace, on success, set a status message and trigger
the full `refresh_all` sequence; spec-audit, on success, only sets the
status message (no refresh at all); delete-branch, on success, sets the
status message and reloads only the Branches list; every action, on
failure, records the error via `set_error` and leaves all cached lists,
indices and the status untouched. -/
theorem C3_modal_submission_amended :
    (∀ gw ms scr s f0 f1 f2 fr proj br,
      (trimS f0.value) ≠ "" → (trimS f1.value) ≠ "" →
      (if (trimS f2.value) = "" then "main" else (trimS f2.value)) = br →
      gw.createProject (trimS f0.value) (trimS f1.value) br = Except.ok proj →
      handleFormSubmit gw ms scr .createProject (f0 :: f1 :: f2 :: fr) s =
        ((refreshAll gw ms scr
            { s with status := "Created project " ++ toString proj.id }).1,
         Call.createProject (trimS f0.value) (trimS f1.value) br ::
           (refreshAll gw ms scr
             { s with status := "Created project " ++ toString proj.id }).2))
    ∧ (∀ gw ms scr s f0 f1 f2 fr e br,
      (trimS f0.value) ≠ "" → (trimS f1.value) ≠ "" →
      (if (trimS f2.value) = "" then "main" else (trimS f2.value)) = br →
      gw.createProject (trimS f0.value) (trimS f1.value) br = Except.error e →
      handleFormSubmit gw ms scr .createProject (f0 :: f1 :: f2 :: fr) s =
        (setError e s, [Call.createProject (trimS f0.value) (trimS f1.value) br]))
    ∧ (∀ gw ms scr s pid f0 f1 f2 fr run br d,
      selectedProjectId s = some pid → (trimS f0.value) ≠ "" →
      (if (trimS f1.value) = "" then "main" else (trimS f1.value)) = br →
      (if (trimS f2.value) = "" then none else some (trimS f2.value)) = d →
      gw.createProtocol pid (trimS f0.value) br d = Except.ok run →
      handleFormSubmit gw ms scr .createProtocol (f0 :: f1 :: f2 :: fr) s =
        ((refreshAll gw ms scr
            { s with protocolIndex := none,
                     status := "Created protocol " ++ toString run.id }).1,
         Call.createProtocol pid (trimS f0.value) br d ::
           (refreshAll gw ms scr
             { s with protocolIndex := none,
                      status := "Created protocol " ++ toString run.id }).2))
    ∧ (∀ gw ms scr s pid f0 f1 f2 fr e br d,
      selectedProjectId s = some pid → (trimS f0.value) ≠ "" →
      (if (trimS f1.value) = "" then "main" else (trimS f1.value)) = br →
      (if (trimS f2.value) = "" then none else some (trimS f2.value)) = d →
      gw.createProtocol pid (trimS f0.value) br d = Except.error e →
      handleFormSubmit gw ms scr .createProtocol (f0 :: f1 :: f2 :: fr) s =
        (setError e s, [Call.createProtocol pid (trimS f0.value) br d]))
    ∧ (∀ gw ms scr s (fields : List InputField) pid prid bf iv v,
      fields[0]?.bind (fun f => parseI64 ((trimS f.value))) = pid →
      fields[1]?.bind (fun f => parseI64 ((trimS f.value))) = prid →
      (fields[2]?.map fun f => startsWithY ((trimS f.value))).getD false = bf →
      fields[3]?.bind (fun f => parseI64 ((trimS f.value))) = iv →
      gw.specAudit pid prid bf iv = Except.ok v →
      handleFormSubmit gw ms scr .specAudit fields s =
        ({ s with status := "Spec audit enqueued" },
         [Call.specAudit pid prid bf iv]))
    ∧ (∀ gw ms scr s (fields : List InputField) pid prid bf iv e,
      fields[0]?.bind (fun f => parseI64 ((trimS f.value))) = pid →
      fields[1]?.bind (fun f => parseI64 ((trimS f.value))) = prid →
      (fields[2]?.map fun f => startsWithY ((trimS f.value))).getD false = bf →
      fields[3]?.bind (fun f => parseI64 ((trimS f.value))) = iv →
      gw.specAudit pid prid bf iv = Except.error e →
      handleFormSubmit gw ms scr .specAudit fields s =
        (setError e s, [Call.specAudit pid prid bf iv]))
    ∧ (∀ gw ms scr s pid f0 f1 f2 f3 f4 fr v br d,
      selectedProjectId s = some pid →
      (trimS f0.value) ≠ "" → (trimS f1.value) ≠ "" →
      (if (trimS f2.value) = "" then "main" else (trimS f2.value)) = br →
      (if (trimS f3.value) = "" then none else some (trimS f3.value)) = d →
      gw.importCodemachine pid (trimS f0.value) (trimS f1.value) br d
          (startsWithY ((trimS f4.value))) = Except.ok v →
      handleFormSubmit gw ms scr .importCodeMachine
          (f0 :: f1 :: f2 :: f3 :: f4 :: fr) s =
        ((refreshAll gw ms scr { s with status := "Import enqueued" }).1,
         Call.importCodemachine pid (trimS f0.value) (trimS f1.value) br d
             (startsWithY ((trimS f4.value))) ::
           (refreshAll gw ms scr { s with status := "Import enqueued" }).2))
    ∧ (∀ gw ms scr s pid f0 f1 f2 f3 f4 fr e br d,
      selectedProjectId s = some pid →
      (trimS f0.value) ≠ "" → (trimS f1.value) ≠ "" →
      (if (trimS f2.value) = "" then "main" else (trimS f2.value)) = br →
      (if (trimS f3.value) = "" then none else some (trimS f3.value)) = d →
      gw.importCodemachine pid (trimS f0.value) (trimS f1.value) br d
          (startsWithY ((trimS f4.value))) = Except.error e →
      handleFormSubmit gw ms scr .importCodeMachine
          (f0 :: f1 :: f2 :: f3 :: f4 :: fr) s =
        (setError e s,
         [Call.importCodemachine pid (trimS f0.value) (trimS f1.value) br d
            (startsWithY ((trimS f4.value)))]))
    ∧ (∀ gw ms scr s (fields : List InputField) idx branch pid v,
      s.branchIndex = some idx → s.branches[idx]? = some branch →
      selectedProjectId s = some pid →
      gw.deleteBranch pid branch = Except.ok v →
      handleFormSubmit gw ms scr .deleteBranch fields s =
        ((loadBranches gw { s with status := "Deleted branch " ++ branch }).1,
         Call.deleteBranch pid branch ::
           (loadBranches gw { s with status := "Deleted branch " ++ branch }).2))
    ∧ (∀ gw ms scr s (fields : List InputField) idx branch pid e,
      s.branchIndex = some idx → s.branches[idx]? = some branch →
      selectedProjectId s = some pid →
      gw.deleteBranch pid branch = Except.error e →
      handleFormSubmit gw ms scr .deleteBranch fields s =
        (setError e s, [Call.deleteBranch pid branch]))
    ∧ (∀ e s, (setError e s).projects = s.projects
        ∧ (setError e s).projectIndex = s.projectIndex
        ∧ (setError e s).protocols = s.protocols
        ∧ (setError e s).protocolIndex = s.protocolIndex
        ∧ (setError e s).steps = s.steps
        ∧ (setError e s).stepIndex = s.stepIndex
        ∧ (setError e s).events = s.events
        ∧ (setError e s).recentEvents = s.recentEvents
        ∧ (setError e s).queueStats = s.queueStats
        ∧ (setError e s).queueJobs = s.queueJobs
        ∧ (setError e s).branches = s.branches
        ∧ (setError e s).branchIndex = s.branchIndex
        ∧ (setError e s).status = s.status
        ∧ (setError e s).lastError = some (errString e)) := by
  refine ⟨?_, ?_, ?_, ?_, ?_, ?_, ?_, ?_, ?_, ?_, ?_⟩
  · intro gw ms scr s f0 f1 f2 fr proj br hn hg hbr hok
    simp [handleFormSubmit, hn, hg, hbr, hok]
  · intro gw ms scr s f0 f1 f2 fr e br hn hg hbr herr
    simp [handleFormSubmit, hn, hg, hbr, herr]
  · intro gw ms scr s pid f0 f1 f2 fr run br d hsel hn hbr hd hok
    simp [handleFormSubmit, hsel, hn, hbr, hd, hok]
  · intro gw ms scr s pid f0 f1 f2 fr e br d hsel hn hbr hd herr
    simp [handleFormSubmit, hsel, hn, hbr, hd, herr]
  · intro gw ms scr s fields pid prid bf iv v h0 h1 h2 h3 hok
    simp [handleFormSubmit, h0, h1, h2, h3, hok]
  · intro gw ms scr s fields pid prid bf iv e h0 h1 h2 h3 herr
    simp [handleFormSubmit, h0, h1, h2, h3, herr]
  · intro gw ms scr s pid f0 f1 f2 f3 f4 fr v br d hsel hn hp hbr hd hok
    simp [handleFormSubmit, hsel, hn, hp, hbr, hd, hok]
  · intro gw ms scr s pid f0 f1 f2 f3 f4 fr e br d hsel hn hp hbr hd herr
    simp [handleFormSubmit, hsel, hn, hp, hbr, hd, herr]
  · intro gw ms scr s fields idx branch pid v hidx hbr hsel hok
    simp [handleFormSubmit, hidx, hbr, hsel, hok]
  · intro gw ms scr s fields idx branch pid e hidx hbr hsel herr
    simp [handleFormSubmit, hidx, hbr, hsel, herr]
  · intro e s
    simp [setError]

/-- Gateway whose create-project call fails, used by the C3 witness. -/
def gwCPFail : Gateway := { gwOk with createProject := fun _ _ _ => .error eBoom }

theorem C3_modal_submission_amended_witness :
    (handleFormSubmit gwOk 3 Screen.dashboard ModalAction.createProject
        [⟨"Name", "demo", false⟩, ⟨"Git URL", "git@x", false⟩,
         ⟨"Base branch", "", false⟩] stDash =
      ((refreshAll gwOk 3 Screen.dashboard
          { stDash with status := "Created project " ++ toString pA.id }).1,
       Call.createProject (trimS "demo") (trimS "git@x") "main" ::
         (refreshAll gwOk 3 Screen.dashboard
           { stDash with status := "Created project " ++ toString pA.id }).2))
    ∧ (handleFormSubmit gwOk 3 Screen.dashboard ModalAction.specAudit
          specFieldsW stDash =
        ({ stDash with status := "Spec audit enqueued" },
         [Call.specAudit (some 1) (some 10) true none]))
    ∧ (handleFormSubmit gwOk 3 Screen.dashboard ModalAction.deleteBranch [] stP =
        ((loadBranches gwOk { stP with status := "Deleted branch " ++ "main" }).1,
         Call.deleteBranch 1 "main" ::
           (loadBranches gwOk
             { stP with status := "Deleted branch " ++ "main" }).2))
    ∧ (handleFormSubmit gwCPFail 3 Screen.dashboard ModalAction.createProject
          [⟨"Name", "demo", false⟩, ⟨"Git URL", "git@x", false⟩,
           ⟨"Base branch", "", false⟩] stDash =
        (setError eBoom stDash,
         [Call.createProject (trimS "demo") (trimS "git@x") "main"])) :=
  ⟨C3_modal_submission_amended.1 gwOk 3 Screen.dashboard stDash
      ⟨"Name", "demo", false⟩ ⟨"Git URL", "git@x", false⟩
      ⟨"Base branch", "", false⟩ [] pA "main"
      (by decide) (by decide) (by decide) rfl,
   C3_modal_submission_amended.2.2.2.2.1 gwOk 3 Screen.dashboard stDash
      specFieldsW (some 1) (some 10) true none .null
      (by decide) (by decide) (by decide) (by decide) rfl,
   C3_modal_submission_amended.2.2.2.2.2.2.2.2.1 gwOk 3 Screen.dashboard stP
      [] 0 "main" 1 .null rfl (by decide) (by decide) rfl,
   C3_modal_submission_amended.2.1 gwCPFail 3 Screen.dashboard stDash
      ⟨"Name", "demo", false⟩ ⟨"Git URL", "git@x", false⟩
      ⟨"Base branch", "", false⟩ [] eBoom "main"
      (by decide) (by decide) (by decide) rfl⟩

theorem loadProtocols_pres (gw : Gateway) (s : AppState) :
    (loadProtocols gw s).1.page = s.page
    ∧ (loadProtocols gw s).1.projects = s.projects
    ∧ (loadProtocols gw s).1.steps = s.steps
    ∧ (loadProtocols gw s).1.events = s.events
    ∧ (loadProtocols gw s).1.branches = s.branches
    ∧ (loadProtocols gw s).1.queueStats = s.queueStats
    ∧ (loadProtocols gw s).1.queueJobs = s.queueJobs
    ∧ (loadProtocols gw s).1.recentEvents = s.recentEvents := by
  cases h : selectedProjectId s with
  | none => simp [loadProtocols, h]
  | some pid =>
    cases hg : gw.protocols pid with
    | error e => simp [loadProtocols, h, hg, setError]
    | ok d => simp [loadProtocols, h, hg]

theorem loadSteps_pres (gw : Gateway) (s : AppState) :
    (loadSteps gw s).1.page = s.page
    ∧ (loadSteps gw s).1.projects = s.projects
    ∧ (loadSteps gw s).1.projectIndex = s.projectIndex
    ∧ (loadSteps gw s).1.protocols = s.protocols
    ∧ (loadSteps gw s).1.protocolIndex = s.protocolIndex
    ∧ (loadSteps gw s).1.events = s.events
    ∧ (loadSteps gw s).1.branches = s.branches
    ∧ (loadSteps gw s).1.queueStats = s.queueStats
    ∧ (loadSteps gw s).1.queueJobs = s.queueJobs
    ∧ (loadSteps gw s).1.recentEvents = s.recentEvents := by
  cases h : selectedProtocolId s with
  | none => simp [loadSteps, h]
  | some prid =>
    cases hg : gw.steps prid with
    | error e => simp [loadSteps, h, hg, setError]
    | ok d => simp [loadSteps, h, hg]

theorem loadEvents_pres (gw : Gateway) (s : AppState) :
    (loadEvents gw s).1.page = s.page
    ∧ (loadEvents gw s).1.projects = s.projects
    ∧ (loadEvents gw s).1.projectIndex = s.projectIndex
    ∧ (loadEvents gw s).1.protocols = s.protocols
    ∧ (loadEvents gw s).1.protocolIndex = s.protocolIndex
    ∧ (loadEvents gw s).1.steps = s.steps
    ∧ (loadEvents gw s).1.stepIndex = s.stepIndex
    ∧ (loadEvents gw s).1.branches = s.branches
    ∧ (loadEvents gw s).1.queueStats = s.queueStats
    ∧ (loadEvents gw s).1.queueJobs = s.queueJobs
    ∧ (loadEvents gw s).1.recentEvents = s.recentEvents := by
  cases h : selectedProtocolId s with
  | none => simp [loadEvents, h]
  | some prid =>
    cases hg : gw.events prid with
    | error e => simp [loadEvents, h, hg, setError]
    | ok d => simp [loadEvents, h, hg]

theorem loadBranches_pres (gw : Gateway) (s : AppState) :
    (loadBranches gw s).1.page = s.page
    ∧ (loadBranches gw s).1.projects = s.projects
    ∧ (loadBranches gw s).1.protocols = s.protocols
    ∧ (loadBranches gw s).1.steps = s.steps
    ∧ (loadBranches gw s).1.events = s.events
    ∧ (loadBranches gw s).1.queueStats = s.queueStats
    ∧ (loadBranches gw s).1.queueJobs = s.queueJobs
    ∧ (loadBranches gw s).1.recentEvents = s.recentEvents := by
  cases h : selectedProjectId s with
  | none => simp [loadBranches, h]
  | some pid =>
    cases hg : gw.branches pid with
    | error e => simp [loadBranches, h, hg, setError]
    | ok d => simp [loadBranches, h, hg]

theorem loadProtocols_calls (gw : Gateway) (s : AppState) :
    ∀ c ∈ (loadProtocols gw s).2, ∃ i, c = Call.protocols i := by
  cases h : selectedProjectId s with
  | none => simp [loadProtocols, h]
  | some pid =>
    cases hg : gw.protocols pid with
    | error e =>
      simp only [loadProtocols, h, hg]
      intro c hc
      simp only [List.mem_singleton] at hc
      exact ⟨pid, hc⟩
    | ok d =>
      simp only [loadProtocols, h, hg]
      intro c hc
      simp only [List.mem_singleton] at hc
      exact ⟨pid, hc⟩

theorem loadSteps_calls (gw : Gateway) (s : AppState) :
    ∀ c ∈ (loadSteps gw s).2, ∃ i, c = Call.steps i := by
  cases h : selectedProtocolId s with
  | none => simp [loadSteps, h]
  | some prid =>
    cases hg : gw.steps prid with
    | error e =>
      simp only [loadSteps, h, hg]
      intro c hc
      simp only [List.mem_singleton] at hc
      exact ⟨prid, hc⟩
    | ok d =>
      simp only [loadSteps, h, hg]
      intro c hc
      simp only [List.mem_singleton] at hc
      exact ⟨prid, hc⟩

theorem loadEvents_calls (gw : Gateway) (s : AppState) :
    ∀ c ∈ (loadEvents gw s).2, ∃ i, c = Call.events i := by
  cases h : selectedProtocolId s with
  | none => simp [loadEvents, h]
  | some prid =>
    cases hg : gw.events prid with
    | error e =>
      simp only [loadEvents, h, hg]
      intro c hc
      simp only [List.mem_singleton] at hc
      exact ⟨prid, hc⟩
    | ok d =>
      simp only [loadEvents, h, hg]
      intro c hc
      simp only [List.mem_singleton] at hc
      exact ⟨prid, hc⟩

theorem loadBranches_calls (gw : Gateway) (s : AppState) :
    ∀ c ∈ (loadBranches gw s).2, ∃ i, c = Call.branches i := by
  cases h : selectedProjectId s with
  | none => simp [loadBranches, h]
  | some pid =>
    cases hg : gw.branches pid with
    | error e =>
      simp only [loadBranches, h, hg]
      intro c hc
      simp only [List.mem_singleton] at hc
      exact ⟨pid, hc⟩
    | ok d =>
      simp only [loadBranches, h, hg]
      intro c hc
      simp only [List.mem_singleton] at hc
      exact ⟨pid, hc⟩

theorem loadProtocols_projects (gw : Gateway) (s : AppState) :
    (loadProtocols gw s).1.projects = s.projects := (loadProtocols_pres gw s).2.1

theorem loadProtocols_queueStats (gw : Gateway) (s : AppState) :
    (loadProtocols gw s).1.queueStats = s.queueStats :=
  (loadProtocols_pres gw s).2.2.2.2.2.1

theorem loadProtocols_queueJobs (gw : Gateway) (s : AppState) :
    (loadProtocols gw s).1.queueJobs = s.queueJobs :=
  (loadProtocols_pres gw s).2.2.2.2.2.2.1

theorem loadProtocols_recentEvents (gw : Gateway) (s : AppState) :
    (loadProtocols gw s).1.recentEvents = s.recentEvents :=
  (loadProtocols_pres gw s).2.2.2.2.2.2.2

theorem loadSteps_projects (gw : Gateway) (s : AppState) :
    (loadSteps gw s).1.projects = s.projects := (loadSteps_pres gw s).2.1

theorem loadSteps_protocols (gw : Gateway) (s : AppState) :
    (loadSteps gw s).1.protocols = s.protocols := (loadSteps_pres gw s).2.2.2.1

theorem loadSteps_branches (gw : Gateway) (s : AppState) :
    (loadSteps gw s).1.branches = s.branches :=
  (loadSteps_pres gw s).2.2.2.2.2.2.1

theorem loadSteps_queueStats (gw : Gateway) (s : AppState) :
    (loadSteps gw s).1.queueStats = s.queueStats :=
  (loadSteps_pres gw s).2.2.2.2.2.2.2.1

theorem loadSteps_queueJobs (gw : Gateway) (s : AppState) :
    (loadSteps gw s).1.queueJobs = s.queueJobs :=
  (loadSteps_pres gw s).2.2.2.2.2.2.2.2.1

theorem loadSteps_recentEvents (gw : Gateway) (s : AppState) :
    (loadSteps gw s).1.recentEvents = s.recentEvents :=
  (loadSteps_pres gw s).2.2.2.2.2.2.2.2.2

theorem loadEvents_projects (gw : Gateway) (s : AppState) :
    (loadEvents gw s).1.projects = s.projects := (loadEvents_pres gw s).2.1

theorem loadEvents_protocols (gw : Gateway) (s : AppState) :
    (loadEvents gw s).1.protocols = s.protocols := (loadEvents_pres gw s).2.2.2.1

theorem loadEvents_steps (gw : Gateway) (s : AppState) :
    (loadEvents gw s).1.steps = s.steps := (loadEvents_pres gw s).2.2.2.2.2.1

theorem loadEvents_branches (gw : Gateway) (s : AppState) :
    (loadEvents gw s).1.branches = s.branches :=
  (loadEvents_pres gw s).2.2.2.2.2.2.2.1

theorem loadEvents_queueStats (gw : Gateway) (s : AppState) :
    (loadEvents gw s).1.queueStats = s.queueStats :=
  (loadEvents_pres gw s).2.2.2.2.2.2.2.2.1

theorem loadEvents_queueJobs (gw : Gateway) (s : AppState) :
    (loadEvents gw s).1.queueJobs = s.queueJobs :=
  (loadEvents_pres gw s).2.2.2.2.2.2.2.2.2.1

theorem loadEvents_recentEvents (gw : Gateway) (s : AppState) :
    (loadEvents gw s).1.recentEvents = s.recentEvents :=
  (loadEvents_pres gw s).2.2.2.2.2.2.2.2.2.2

theorem loadBranches_projects (gw : Gateway) (s : AppState) :
    (loadBranches gw s).1.projects = s.projects := (loadBranches_pres gw s).2.1

theorem loadBranches_queueStats (gw : Gateway) (s : AppState) :
    (loadBranches gw s).1.queueStats = s.queueStats :=
  (loadBranches_pres gw s).2.2.2.2.2.1

theorem loadBranches_queueJobs (gw : Gateway) (s : AppState) :
    (loadBranches gw s).1.queueJobs = s.queueJobs :=
  (loadBranches_pres gw s).2.2.2.2.2.2.1

theorem loadBranches_recentEvents (gw : Gateway) (s : AppState) :
    (loadBranches gw s).1.recentEvents = s.recentEvents :=
  (loadBranches_pres gw s).2.2.2.2.2.2.2

theorem resetFirst_one (p : Option Nat) : resetFirst p 1 = some 0 := by
  unfold resetFirst outOfRange
  rcases p with _ | i
  · simp
  · by_cases h : 1 ≤ i
    · simp [h]
    · have hi : i = 0 := by omega
      subst hi
      simp

/-- Dashboard state on the Steps page whose cached Events list is stale,
used by the C4 counterexample. -/
def stStepsStale : AppState :=
  { stP with page := Page.steps, events := [], eventIndex := none }

/-- C4 counterexample: the claim says moving within Steps triggers no
downstream re-fetch, yet `refresh_selection` on the Steps page issues an
Events fetch — the trace holds the events call and the stale cached
Events list is replaced by the freshly fetched one. -/
theorem C4_counterexample :
    (refreshSelection gwOk stStepsStale).2 = [Call.events 10]
    ∧ (refreshSelection gwOk stStepsStale).1.events = [evE]
    ∧ stStepsStale.events = [] :=
  ⟨by decide, by decide, by decide⟩

/-- C4 amended: the selection-change cascade refreshes per page as
follows.  On the Projects (or Dashboard) page it re-fetches only
Protocols, Steps, Events and Branches and leaves the queue statistics,
queue jobs, recent events and the Projects list itself untouched; on the
Protocols page it re-fetches only Steps and Events; on the Steps page it
re-fetches only Events (so Steps is NOT a cascade leaf: an Events fetch
still runs).  With a project selected on the Projects page and all four
scoped fetches succeeding, the cascade issues exactly the four
invalidated fetches in order. -/
theorem C4_cascade_amended (gw : Gateway) (s : AppState) :
    (s.page = Page.dashboard ∨ s.page = Page.projects →
      (refreshSelection gw s).1.queueStats = s.queueStats
      ∧ (refreshSelection gw s).1.queueJobs = s.queueJobs
      ∧ (refreshSelection gw s).1.recentEvents = s.recentEvents
      ∧ (refreshSelection gw s).1.projects = s.projects
      ∧ ∀ c ∈ (refreshSelection gw s).2,
          (∃ i, c = Call.protocols i) ∨ (∃ i, c = Call.steps i)
          ∨ (∃ i, c = Call.events i) ∨ (∃ i, c = Call.branches i))
    ∧ (s.page = Page.protocols →
      (refreshSelection gw s).1.projects = s.projects
      ∧ (refreshSelection gw s).1.protocols = s.protocols
      ∧ (refreshSelection gw s).1.branches = s.branches
      ∧ (refreshSelection gw s).1.queueStats = s.queueStats
      ∧ (refreshSelection gw s).1.queueJobs = s.queueJobs
      ∧ (refreshSelection gw s).1.recentEvents = s.recentEvents
      ∧ ∀ c ∈ (refreshSelection gw s).2,
          (∃ i, c = Call.steps i) ∨ (∃ i, c = Call.events i))
    ∧ (s.page = Page.steps →
      (refreshSelection gw s).1.projects = s.projects
      ∧ (refreshSelection gw s).1.protocols = s.protocols
      ∧ (refreshSelection gw s).1.steps = s.steps
      ∧ (refreshSelection gw s).1.branches = s.branches
      ∧ (refreshSelection gw s).1.queueStats = s.queueStats
      ∧ (refreshSelection gw s).1.queueJobs = s.queueJobs
      ∧ (refreshSelection gw s).1.recentEvents = s.recentEvents
      ∧ ∀ c ∈ (refreshSelection gw s).2, ∃ i, c = Call.events i)
    ∧ (∀ p pr sd ed bl,
      s.page = Page.projects → s.projects = [p] → s.projectIndex = some 0 →
      gw.protocols p.id = Except.ok [pr] →
      gw.steps pr.id = Except.ok sd → gw.events pr.id = Except.ok ed →
      gw.branches p.id = Except.ok bl →
      (refreshSelection gw s).2 =
        [Call.protocols p.id, Call.steps pr.id, Call.events pr.id,
         Call.branches p.id]) := by
  refine ⟨?_, ?_, ?_, ?_⟩
  · intro hpage
    have hsel : refreshSelection gw s =
        seqS (seqS (seqS (loadProtocols gw s) (loadSteps gw)) (loadEvents gw))
          (loadBranches gw) := by
      rcases hpage with h | h <;> simp [refreshSelection, h]
    rw [hsel]
    refine ⟨?_, ?_, ?_, ?_, ?_⟩
    · simp [seqS, loadBranches_queueStats, loadEvents_queueStats,
        loadSteps_queueStats, loadProtocols_queueStats]
    · simp [seqS, loadBranches_queueJobs, loadEvents_queueJobs,
        loadSteps_queueJobs, loadProtocols_queueJobs]
    · simp [seqS, loadBranches_recentEvents, loadEvents_recentEvents,
        loadSteps_recentEvents, loadProtocols_recentEvents]
    · simp [seqS, loadBranches_projects, loadEvents_projects,
        loadSteps_projects, loadProtocols_projects]
    · intro c hc
      simp only [seqS, List.mem_append] at hc
      rcases hc with ((hc | hc) | hc) | hc
      · exact Or.inl (loadProtocols_calls _ _ c hc)
      · exact Or.inr (Or.inl (loadSteps_calls _ _ c hc))
      · exact Or.inr (Or.inr (Or.inl (loadEvents_calls _ _ c hc)))
      · exact Or.inr (Or.inr (Or.inr (loadBranches_calls _ _ c hc)))
  · intro hpage
    have hsel : refreshSelection gw s = seqS (loadSteps gw s) (loadEvents gw) := by
      simp [refreshSelection, hpage]
    rw [hsel]
    refine ⟨?_, ?_, ?_, ?_, ?_, ?_, ?_⟩
    · simp [seqS, loadEvents_projects, loadSteps_projects]
    · simp [seqS, loadEvents_protocols, loadSteps_protocols]
    · simp [seqS, loadEvents_branches, loadSteps_branches]
    · simp [seqS, loadEvents_queueStats, loadSteps_queueStats]
    · simp [seqS, loadEvents_queueJobs, loadSteps_queueJobs]
    · simp [seqS, loadEvents_recentEvents, loadSteps_recentEvents]
    · intro c hc
      simp only [seqS, List.mem_append] at hc
      rcases hc with hc | hc
      · exact Or.inl (loadSteps_calls _ _ c hc)
      · exact Or.inr (loadEvents_calls _ _ c hc)
  · intro hpage
    have hsel : refreshSelection gw s = loadEvents gw s := by
      simp [refreshSelection, hpage]
    rw [hsel]
    exact ⟨loadEvents_projects gw s, loadEvents_protocols gw s,
      loadEvents_steps gw s, loadEvents_branches gw s,
      loadEvents_queueStats gw s, loadEvents_queueJobs gw s,
      loadEvents_recentEvents gw s, loadEvents_calls gw s⟩
  · intro p pr sd ed bl hpage hprj hpi hpr hsd hed hbl
    simp [refreshSelection, hpage, seqS, loadProtocols, loadSteps, loadEvents,
      loadBranches, selectedProjectId, selectedProtocolId, setError,
      resetFirst_one, hprj, hpi, hpr, hsd, hed, hbl]

theorem C4_cascade_amended_witness :
    ((refreshSelection gwOk stStepsStale).1.projects = stStepsStale.projects
     ∧ (refreshSelection gwOk stStepsStale).1.protocols = stStepsStale.protocols
     ∧ (refreshSelection gwOk stStepsStale).1.steps = stStepsStale.steps
     ∧ (refreshSelection gwOk stStepsStale).1.branches = stStepsStale.branches
     ∧ (refreshSelection gwOk stStepsStale).1.queueStats = stStepsStale.queueStats
     ∧ (refreshSelection gwOk stStepsStale).1.queueJobs = stStepsStale.queueJobs
     ∧ (refreshSelection gwOk stStepsStale).1.recentEvents
         = stStepsStale.recentEvents
     ∧ ∀ c ∈ (refreshSelection gwOk stStepsStale).2, ∃ i, c = Call.events i)
    ∧ (refreshSelection gwOk stP).2 =
        [Call.protocols pA.id, Call.steps prB.id, Call.events prB.id,
         Call.branches pA.id] :=
  ⟨(C4_cascade_amended gwOk stStepsStale).2.2.1 rfl,
   (C4_cascade_amended gwOk stP).2.2.2 pA prB
     [mkStep 7 "pending", mkStep 8 "running"] [evE] ⟨["main", "dev"]⟩
     rfl rfl rfl rfl rfl rfl rfl⟩

theorem resetFirst_nil (p : Option Nat) : resetFirst p 0 = none := by
  simp [resetFirst]

theorem resetLast_nil (p : Option Nat) : resetLast p 0 = none := by
  simp [resetLast]

theorem resetFirst_stale (idx len : Nat) (h0 : len ≠ 0) (h1 : len ≤ idx) :
    resetFirst (some idx) len = some 0 := by
  simp [resetFirst, outOfRange, h0, h1]

theorem resetLast_stale (idx len : Nat) (h0 : len ≠ 0) (h1 : len ≤ idx) :
    resetLast (some idx) len = some (len - 1) := by
  simp [resetLast, outOfRange, h0, h1]

/-- C5: after a fetch that replaces a list, a previously selected index
that is out of range for the new contents resets to `Some(0)` for
Projects and Protocols and to the last index for Steps (computed on the
filtered list); an empty replacement resets the index to `None` for every
list. -/
theorem C5_replacement_reset (gw : Gateway) (s : AppState) :
    (∀ dp : List Project, gw.projects = Except.ok dp → dp = [] →
      (loadProjects gw s).1.projectIndex = none)
    ∧ (∀ (dp : List Project) idx, gw.projects = Except.ok dp → dp ≠ [] →
      s.projectIndex = some idx → dp.length ≤ idx →
      (loadProjects gw s).1.projectIndex = some 0)
    ∧ (∀ (pid : Int) (dpr : List ProtocolRun), selectedProjectId s = some pid →
      gw.protocols pid = Except.ok dpr → dpr = [] →
      (loadProtocols gw s).1.protocolIndex = none)
    ∧ (∀ (pid : Int) (dpr : List ProtocolRun) idx,
      selectedProjectId s = some pid → gw.protocols pid = Except.ok dpr →
      dpr ≠ [] → s.protocolIndex = some idx → dpr.length ≤ idx →
      (loadProtocols gw s).1.protocolIndex = some 0)
    ∧ (∀ (prid : Int) (dsd : List StepRun), selectedProtocolId s = some prid →
      gw.steps prid = Except.ok dsd →
      ((loadSteps gw s).1.steps = [] → (loadSteps gw s).1.stepIndex = none)
      ∧ (∀ idx, s.stepIndex = some idx → (loadSteps gw s).1.steps ≠ [] →
          (loadSteps gw s).1.steps.length ≤ idx →
          (loadSteps gw s).1.stepIndex =
            some ((loadSteps gw s).1.steps.length - 1)))
    ∧ (∀ (prid : Int) (dev : List Event), selectedProtocolId s = some prid →
      gw.events prid = Except.ok dev → dev = [] →
      (loadEvents gw s).1.eventIndex = none)
    ∧ (∀ dre : List Event, gw.recentEvents 50 = Except.ok dre → dre = [] →
      (loadRecentEvents gw s).1.recentEventIndex = none)
    ∧ (∀ (pid : Int) (bl : BranchList), selectedProjectId s = some pid →
      gw.branches pid = Except.ok bl → bl.branches = [] →
      (loadBranches gw s).1.branchIndex = none) := by
  refine ⟨?_, ?_, ?_, ?_, ?_, ?_, ?_, ?_⟩
  · intro dp hok hnil
    subst hnil
    simp [loadProjects, hok, resetFirst_nil]
  · intro dp idx hok hne hidx hlen
    have h0 : dp.length ≠ 0 := by
      simpa [List.length_eq_zero] using hne
    simp [loadProjects, hok, hidx, resetFirst_stale idx dp.length h0 hlen]
  · intro pid dpr hsel hok hnil
    subst hnil
    simp [loadProtocols, hsel, hok, resetFirst_nil]
  · intro pid dpr idx hsel hok hne hidx hlen
    have h0 : dpr.length ≠ 0 := by
      simpa [List.length_eq_zero] using hne
    simp [loadProtocols, hsel, hok, hidx, resetFirst_stale idx dpr.length h0 hlen]
  · intro prid dsd hsel hok
    constructor
    · intro hnil
      simp only [loadSteps, hsel, hok] at hnil ⊢
      rw [hnil]
      simp [resetLast_nil]
    · intro idx hidx hne hlen
      simp only [loadSteps, hsel, hok] at hne hlen ⊢
      have h0 : (dsd.filter fun st =>
          match s.stepFilter with
          | some f => st.status == f
          | none => true).length ≠ 0 := by
        simpa [List.length_eq_zero] using hne
      rw [hidx] at *
      exact resetLast_stale idx _ h0 hlen
  · intro prid dev hsel hok hnil
    subst hnil
    simp [loadEvents, hsel, hok, resetLast_nil]
  · intro dre hok hnil
    subst hnil
    simp [loadRecentEvents, hok, resetFirst_nil]
  · intro pid bl hsel hok hnil
    simp [loadBranches, hsel, hok, hnil, resetFirst_nil]

/-- Gateway returning an empty project list, used by the C5 witness. -/
def gwEmptyP : Gateway := { gwOk with projects := .ok [] }

/-- Populated state with stale selection indices, used by the C5 witness. -/
def sStale : AppState :=
  { stP with projectIndex := some 5, protocolIndex := some 0, stepIndex := some 9 }

theorem C5_replacement_reset_witness :
    (loadProjects gwEmptyP stP).1.projectIndex = none
    ∧ (loadProjects gwOk sStale).1.projectIndex = some 0
    ∧ (loadSteps gwOk sStale).1.stepIndex =
        some ((loadSteps gwOk sStale).1.steps.length - 1) :=
  ⟨(C5_replacement_reset gwEmptyP stP).1 [] rfl rfl,
   (C5_replacement_reset gwOk sStale).2.1 [pA] 5 rfl (by decide) rfl (by decide),
   ((C5_replacement_reset gwOk sStale).2.2.2.2.1 10
       [mkStep 7 "pending", mkStep 8 "running"] (by decide) rfl).2 9 rfl
     (by decide) (by decide)⟩

theorem loadProtocols_err (gw : Gateway) (s : AppState)
    (h : s.lastError.isSome) : (loadProtocols gw s).1.lastError.isSome := by
  cases hs : selectedProjectId s with
  | none => simpa [loadProtocols, hs]
  | some pid =>
    cases hg : gw.protocols pid with
    | error e => simp [loadProtocols, hs, hg, setError]
    | ok d => simpa [loadProtocols, hs, hg]

theorem loadSteps_err (gw : Gateway) (s : AppState)
    (h : s.lastError.isSome) : (loadSteps gw s).1.lastError.isSome := by
  cases hs : selectedProtocolId s with
  | none => simpa [loadSteps, hs]
  | some prid =>
    cases hg : gw.steps prid with
    | error e => simp [loadSteps, hs, hg, setError]
    | ok d => simpa [loadSteps, hs, hg]

theorem loadEvents_err (gw : Gateway) (s : AppState)
    (h : s.lastError.isSome) : (loadEvents gw s).1.lastError.isSome := by
  cases hs : selectedProtocolId s with
  | none => simpa [loadEvents, hs]
  | some prid =>
    cases hg : gw.events prid with
    | error e => simp [loadEvents, hs, hg, setError]
    | ok d => simpa [loadEvents, hs, hg]

theorem loadBranches_err (gw : Gateway) (s : AppState)
    (h : s.lastError.isSome) : (loadBranches gw s).1.lastError.isSome := by
  cases hs : selectedProjectId s with
  | none => simpa [loadBranches, hs]
  | some pid =>
    cases hg : gw.branches pid with
    | error e => simp [loadBranches, hs, hg, setError]
    | ok d => simpa [loadBranches, hs, hg]

/-- C6: the last-error slot is never cleared by navigation or by the mere
passage of time.  Page changes, page jumps and all selection moves leave
`last_error` untouched; the selection-change cascade can only overwrite a
set error with a newer fetch failure, never clear it; and the timer tick
runs exactly the `refresh_all` operation (`refresh_scoped` is
`refresh_all`), whose final `last_error` is determined solely by the
operation's own fetch outcomes — it does not depend on the previously
stored error, so the slot always reflects the most recent operation's
outcome. -/
theorem C6_error_persistence (gw : Gateway) (ms : Nat) (s : AppState)
    (p : Page) (delta : Int) (e1 e2 : Option String) :
    (tabKey s).lastError = s.lastError
    ∧ (backTabKey s).lastError = s.lastError
    ∧ (jumpPage p s).lastError = s.lastError
    ∧ (handleDown s).lastError = s.lastError
    ∧ (handleUp s).lastError = s.lastError
    ∧ (selectProject delta s).lastError = s.lastError
    ∧ (selectProtocol delta s).lastError = s.lastError
    ∧ (selectStep delta s).lastError = s.lastError
    ∧ (selectEvent delta s).lastError = s.lastError
    ∧ (selectBranch delta s).lastError = s.lastError
    ∧ (s.lastError.isSome → ((refreshSelection gw s).1.lastError).isSome)
    ∧ (refreshAll gw ms Screen.dashboard { s with lastError := e1 }).1.lastError
        = (refreshAll gw ms Screen.dashboard { s with lastError := e2 }).1.lastError
    ∧ refreshScoped gw ms Screen.dashboard s = refreshAll gw ms Screen.dashboard s := by
  refine ⟨rfl, rfl, rfl, ?_, ?_, rfl, rfl, rfl, rfl, rfl, ?_, ?_, rfl⟩
  · cases hp : s.page <;>
      simp [handleDown, hp, selectProject, selectProtocol, selectStep, selectEvent]
    cases s.branchIndex <;> simp
  · cases hp : s.page <;>
      simp [handleUp, hp, selectProject, selectProtocol, selectStep, selectEvent]
    cases s.branchIndex <;> simp
  · intro h
    cases hp : s.page with
    | dashboard =>
      simp only [refreshSelection, hp, seqS]
      exact loadBranches_err _ _ (loadEvents_err _ _ (loadSteps_err _ _
        (loadProtocols_err _ _ h)))
    | projects =>
      simp only [refreshSelection, hp, seqS]
      exact loadBranches_err _ _ (loadEvents_err _ _ (loadSteps_err _ _
        (loadProtocols_err _ _ h)))
    | protocols =>
      simp only [refreshSelection, hp, seqS]
      exact loadEvents_err _ _ (loadSteps_err _ _ h)
    | steps =>
      simp only [refreshSelection, hp]
      exact loadEvents_err _ _ h
    | events => simpa [refreshSelection, hp]
    | queues => simpa [refreshSelection, hp]
    | settings => simpa [refreshSelection, hp]
  · rfl

/-- Populated state carrying a previously recorded error, used by the C6
witness. -/
def stPErr : AppState := { stP with lastError := some "earlier failure" }

theorem C6_error_persistence_witness :
    stPErr.lastError.isSome
    ∧ ((refreshSelection gwOk stPErr).1.lastError).isSome
    ∧ (tabKey stPErr).lastError = stPErr.lastError :=
  ⟨by decide,
   (C6_error_persistence gwOk 3 stPErr Page.dashboard 1 none
       none).2.2.2.2.2.2.2.2.2.2.1 (by decide),
   (C6_error_persistence gwOk 3 stPErr Page.dashboard 1 none none).1⟩

/-- C7: submitting the create-project form with an empty (or
whitespace-only, since the field is trimmed first) name produces the
locally detected validation error "Name and Git URL required", issues no
remote call (empty trace), and changes nothing but the last-error slot —
in particular the Projects list and its selection are untouched. -/
theorem C7_create_project_validation (gw : Gateway) (ms : Nat) (scr : Screen)
    (s : AppState) (f0 f1 f2 : InputField) (fr : List InputField)
    (hname : trimS f0.value = "") :
    handleFormSubmit gw ms scr ModalAction.createProject (f0 :: f1 :: f2 :: fr) s =
      ({ s with lastError := some "Name and Git URL required" }, [])
    ∧ (handleFormSubmit gw ms scr ModalAction.createProject
        (f0 :: f1 :: f2 :: fr) s).1.projects = s.projects
    ∧ (handleFormSubmit gw ms scr ModalAction.createProject
        (f0 :: f1 :: f2 :: fr) s).1.projectIndex = s.projectIndex
    ∧ (handleFormSubmit gw ms scr ModalAction.createProject
        (f0 :: f1 :: f2 :: fr) s).2 = [] := by
  refine ⟨?_, ?_, ?_, ?_⟩ <;> simp [handleFormSubmit, hname]

theorem C7_create_project_validation_witness :
    handleFormSubmit gwOk 3 Screen.dashboard ModalAction.createProject
      [⟨"Name", "   ", false⟩, ⟨"Git URL", "git@x", false⟩,
       ⟨"Base branch", "main", false⟩] stP =
      ({ stP with lastError := some "Name and Git URL required" }, [])
    ∧ (handleFormSubmit gwOk 3 Screen.dashboard ModalAction.createProject
        [⟨"Name", "   ", false⟩, ⟨"Git URL", "git@x", false⟩,
         ⟨"Base branch", "main", false⟩] stP).1.projects = stP.projects
    ∧ (handleFormSubmit gwOk 3 Screen.dashboard ModalAction.createProject
        [⟨"Name", "   ", false⟩, ⟨"Git URL", "git@x", false⟩,
         ⟨"Base branch", "main", false⟩] stP).1.projectIndex = stP.projectIndex
    ∧ (handleFormSubmit gwOk 3 Screen.dashboard ModalAction.createProject
        [⟨"Name", "   ", false⟩, ⟨"Git URL", "git@x", false⟩,
         ⟨"Base branch", "main", false⟩] stP).2 = [] :=
  C7_create_project_validation gwOk 3 Screen.dashboard stP
    ⟨"Name", "   ", false⟩ ⟨"Git URL", "git@x", false⟩
    ⟨"Base branch", "main", false⟩ [] (by decide)

theorem loadSteps_stepFilter (gw : Gateway) (s : AppState) :
    (loadSteps gw s).1.stepFilter = s.stepFilter := by
  cases h : selectedProtocolId s with
  | none => simp [loadSteps, h]
  | some prid =>
    cases hg : gw.steps prid with
    | error e => simp [loadSteps, h, hg, setError]
    | ok d => simp [loadSteps, h, hg]

theorem loadSteps_events (gw : Gateway) (s : AppState) :
    (loadSteps gw s).1.events = s.events := (loadSteps_pres gw s).2.2.2.2.2.1

/-- One full pass of `cycle_step_filter`, state component only. -/
def cycleState (gw : Gateway) (s : AppState) : AppState :=
  (cycleStepFilter gw s).1

theorem cycleStepFilter_filter (gw : Gateway) (s : AppState) :
    (cycleStepFilter gw s).1.stepFilter = nextStepFilter s.stepFilter := by
  simp only [cycleStepFilter, loadSteps_stepFilter]

theorem nextStepFilter_five (f : Option String) (h : f ∈ stepFilterOrder) :
    nextStepFilter (nextStepFilter (nextStepFilter (nextStepFilter
      (nextStepFilter f)))) = f := by
  simp only [stepFilterOrder, List.mem_cons, List.not_mem_nil, or_false] at h
  rcases h with h | h | h | h | h <;> subst h <;> decide

/-- C8: the step-filter successor is a 5-cycle — starting from any value
of the fixed order, five `cycle_step_filter` passes restore the original
`step_filter` — and each single pass re-fetches only the Steps list: its
trace holds at most the one steps call (exactly that call when a protocol
is selected) and every other cached list is left unchanged. -/
theorem C8_step_filter_cycle (gw : Gateway) (s : AppState)
    (h : s.stepFilter ∈ stepFilterOrder) :
    (cycleState gw (cycleState gw (cycleState gw (cycleState gw
        (cycleState gw s))))).stepFilter = s.stepFilter
    ∧ (cycleStepFilter gw s).1.projects = s.projects
    ∧ (cycleStepFilter gw s).1.protocols = s.protocols
    ∧ (cycleStepFilter gw s).1.events = s.events
    ∧ (cycleStepFilter gw s).1.recentEvents = s.recentEvents
    ∧ (cycleStepFilter gw s).1.queueStats = s.queueStats
    ∧ (cycleStepFilter gw s).1.queueJobs = s.queueJobs
    ∧ (cycleStepFilter gw s).1.branches = s.branches
    ∧ (∀ c ∈ (cycleStepFilter gw s).2, ∃ i, c = Call.steps i)
    ∧ (∀ prid, selectedProtocolId s = some prid →
        (cycleStepFilter gw s).2 = [Call.steps prid]) := by
  refine ⟨?_, ?_, ?_, ?_, ?_, ?_, ?_, ?_, ?_, ?_⟩
  · simp only [cycleState, cycleStepFilter_filter]
    exact nextStepFilter_five s.stepFilter h
  · simp only [cycleStepFilter, loadSteps_projects]
  · simp only [cycleStepFilter, loadSteps_protocols]
  · simp only [cycleStepFilter, loadSteps_events]
  · simp only [cycleStepFilter, loadSteps_recentEvents]
  · simp only [cycleStepFilter, loadSteps_queueStats]
  · simp only [cycleStepFilter, loadSteps_queueJobs]
  · simp only [cycleStepFilter, loadSteps_branches]
  · simp only [cycleStepFilter]
    exact loadSteps_calls gw _
  · intro prid hsel
    have hsel2 : selectedProtocolId
        { s with stepFilter := nextStepFilter s.stepFilter,
                 status := "Step filter: " ++ (nextStepFilter s.stepFilter).getD "all" }
        = some prid := by
      simpa [selectedProtocolId] using hsel
    cases hg : gw.steps prid with
    | error e => simp [cycleStepFilter, loadSteps, hsel2, hg, setError]
    | ok d => simp [cycleStepFilter, loadSteps, hsel2, hg]

theorem C8_step_filter_cycle_witness :
    stP.stepFilter ∈ stepFilterOrder
    ∧ (cycleState gwOk (cycleState gwOk (cycleState gwOk (cycleState gwOk
        (cycleState gwOk stP))))).stepFilter = stP.stepFilter
    ∧ (cycleStepFilter gwOk stP).2 = [Call.steps 10] :=
  ⟨by decide,
   (C8_step_filter_cycle gwOk stP (by decide)).1,
   (C8_step_filter_cycle gwOk stP (by decide)).2.2.2.2.2.2.2.2.2 10 (by decide)⟩

/-- C10: `run_qa_latest` and `approve_latest` always target the LAST
element of the cached (already filtered) Steps list — `steps.last()`,
which equals `steps[len-1]` — ignoring the step selection index entirely
(the statement holds for every state, whatever `step_index` is), and when
the Steps list is empty both operations are silent no-ops: unchanged
state and no remote call. -/
theorem C10_latest_step_actions (gw : Gateway) (ms : Nat) (scr : Screen)
    (s : AppState) :
    (s.steps = [] →
      runQaLatest gw ms scr s = (s, []) ∧ approveLatest gw ms scr s = (s, []))
    ∧ (∀ st, s.steps.getLast? = some st →
        (runQaLatest gw ms scr s).2.head? = some (Call.stepRunQa st.id)
        ∧ (approveLatest gw ms scr s).2.head? = some (Call.stepApprove st.id))
    ∧ s.steps.getLast? = s.steps.get? (s.steps.length - 1) := by
  refine ⟨?_, ?_, ?_⟩
  · intro hnil
    exact ⟨by simp [runQaLatest, hnil], by simp [approveLatest, hnil]⟩
  · intro st hlast
    constructor
    · cases hg : gw.stepRunQa st.id with
      | error e => simp [runQaLatest, hlast, hg, setError]
      | ok v => simp [runQaLatest, hlast, hg]
    · cases hg : gw.stepApprove st.id with
      | error e => simp [approveLatest, hlast, hg, setError]
      | ok v => simp [approveLatest, hlast, hg]
  · rw [List.getLast?_eq_getElem? s.steps, List.get?_eq_getElem?]

/-- State whose step selection points at the FIRST of two steps, so the
witness exhibits the action targeting the last step while the selection
is elsewhere. -/
def stFirstSel : AppState := { stP with stepIndex := some 0 }

theorem C10_latest_step_actions_witness :
    (stDash.steps = [] ∧ runQaLatest gwOk 3 Screen.dashboard stDash = (stDash, []))
    ∧ (stFirstSel.steps.getLast? = some (mkStep 8 "running")
       ∧ (runQaLatest gwOk 3 Screen.dashboard stFirstSel).2.head? =
           some (Call.stepRunQa 8)
       ∧ (approveLatest gwOk 3 Screen.dashboard stFirstSel).2.head? =
           some (Call.stepApprove 8)) :=
  ⟨⟨rfl, ((C10_latest_step_actions gwOk 3 Screen.dashboard stDash).1 rfl).1⟩,
   ⟨by decide,
    ((C10_latest_step_actions gwOk 3 Screen.dashboard stFirstSel).2.1
        (mkStep 8 "running") (by decide)).1,
    ((C10_latest_step_actions gwOk 3 Screen.dashboard stFirstSel).2.1
        (mkStep 8 "running") (by decide)).2⟩⟩

/-- C2: partial-failure isolation of `refresh_all`, for a failure of ANY
single fetch of the eight-fetch sequence.  One conjunct per fetch
position (projects, protocols, steps, events, recent events, queue
stats, queue jobs, branches): if exactly that fetch fails while every
other fetch succeeds, the trace still contains all eight remote calls in
the fixed order, every other list is updated from its own fetch (the
failing one keeps its cached value), the shared error slot holds the
failing fetch's message, and the sequence finishes normally (refreshing
cleared, summary status set).  The scoping state hypotheses keep a
project and a protocol selected so every fetch in the sequence really
issues its call. -/
theorem C2_refresh_partial_failure :
    (∀ (gw : Gateway) (s : AppState) (ms : Nat) (p : Project) (pr : ProtocolRun) (e : ApiError)
      (sd : List StepRun) (ed red : List Event) (qs : JsonValue)
      (qj : List QueueJob) (bl : BranchList),
      gw.projects = Except.error e →
      s.projects = [p] →
      s.projectIndex = some 0 →
      gw.protocols p.id = Except.ok [pr] →
      gw.steps pr.id = Except.ok sd →
      gw.events pr.id = Except.ok ed →
      gw.recentEvents 50 = Except.ok red →
      gw.queueStats = Except.ok qs →
      gw.queueJobs s.jobStatusFilter = Except.ok qj →
      gw.branches p.id = Except.ok bl →
      s.stepFilter = none →
      (refreshAll gw ms Screen.dashboard s).2 =
        [Call.projects, Call.protocols p.id, Call.steps pr.id, Call.events pr.id,
         Call.recentEvents 50, Call.queueStats, Call.queueJobs s.jobStatusFilter,
         Call.branches p.id]
      ∧ (refreshAll gw ms Screen.dashboard s).1.lastError = some (errString e)
      ∧ (refreshAll gw ms Screen.dashboard s).1.projects = [p]
      ∧ (refreshAll gw ms Screen.dashboard s).1.protocols = [pr]
      ∧ (refreshAll gw ms Screen.dashboard s).1.steps = sd
      ∧ (refreshAll gw ms Screen.dashboard s).1.events = ed
      ∧ (refreshAll gw ms Screen.dashboard s).1.recentEvents = red
      ∧ (refreshAll gw ms Screen.dashboard s).1.queueStats = qs
      ∧ (refreshAll gw ms Screen.dashboard s).1.queueJobs = qj
      ∧ (refreshAll gw ms Screen.dashboard s).1.branches = bl.branches
      ∧ (refreshAll gw ms Screen.dashboard s).1.refreshing = false
      ∧ (refreshAll gw ms Screen.dashboard s).1.status = "Refreshed in " ++ toString ms ++ "ms")
    ∧ (∀ (gw : Gateway) (s : AppState) (ms : Nat) (p : Project) (pr : ProtocolRun) (e : ApiError)
      (sd : List StepRun) (ed red : List Event) (qs : JsonValue)
      (qj : List QueueJob) (bl : BranchList),
      gw.projects = Except.ok [p] →
      gw.protocols p.id = Except.error e →
      s.protocols = [pr] →
      s.protocolIndex = some 0 →
      gw.steps pr.id = Except.ok sd →
      gw.events pr.id = Except.ok ed →
      gw.recentEvents 50 = Except.ok red →
      gw.queueStats = Except.ok qs →
      gw.queueJobs s.jobStatusFilter = Except.ok qj →
      gw.branches p.id = Except.ok bl →
      s.stepFilter = none →
      (refreshAll gw ms Screen.dashboard s).2 =
        [Call.projects, Call.protocols p.id, Call.steps pr.id, Call.events pr.id,
         Call.recentEvents 50, Call.queueStats, Call.queueJobs s.jobStatusFilter,
         Call.branches p.id]
      ∧ (refreshAll gw ms Screen.dashboard s).1.lastError = some (errString e)
      ∧ (refreshAll gw ms Screen.dashboard s).1.projects = [p]
      ∧ (refreshAll gw ms Screen.dashboard s).1.protocols = [pr]
      ∧ (refreshAll gw ms Screen.dashboard s).1.steps = sd
      ∧ (refreshAll gw ms Screen.dashboard s).1.events = ed
      ∧ (refreshAll gw ms Screen.dashboard s).1.recentEvents = red
      ∧ (refreshAll gw ms Screen.dashboard s).1.queueStats = qs
      ∧ (refreshAll gw ms Screen.dashboard s).1.queueJobs = qj
      ∧ (refreshAll gw ms Screen.dashboard s).1.branches = bl.branches
      ∧ (refreshAll gw ms Screen.dashboard s).1.refreshing = false
      ∧ (refreshAll gw ms Screen.dashboard s).1.status = "Refreshed in " ++ toString ms ++ "ms")
    ∧ (∀ (gw : Gateway) (s : AppState) (ms : Nat) (p : Project) (pr : ProtocolRun) (e : ApiError)
      (ed red : List Event) (qs : JsonValue)
      (qj : List QueueJob) (bl : BranchList),
      gw.projects = Except.ok [p] →
      gw.protocols p.id = Except.ok [pr] →
      gw.steps pr.id = Except.error e →
      gw.events pr.id = Except.ok ed →
      gw.recentEvents 50 = Except.ok red →
      gw.queueStats = Except.ok qs →
      gw.queueJobs s.jobStatusFilter = Except.ok qj →
      gw.branches p.id = Except.ok bl →
      (refreshAll gw ms Screen.dashboard s).2 =
        [Call.projects, Call.protocols p.id, Call.steps pr.id, Call.events pr.id,
         Call.recentEvents 50, Call.queueStats, Call.queueJobs s.jobStatusFilter,
         Call.branches p.id]
      ∧ (refreshAll gw ms Screen.dashboard s).1.lastError = some (errString e)
      ∧ (refreshAll gw ms Screen.dashboard s).1.projects = [p]
      ∧ (refreshAll gw ms Screen.dashboard s).1.protocols = [pr]
      ∧ (refreshAll gw ms Screen.dashboard s).1.steps = s.steps
      ∧ (refreshAll gw ms Screen.dashboard s).1.events = ed
      ∧ (refreshAll gw ms Screen.dashboard s).1.recentEvents = red
      ∧ (refreshAll gw ms Screen.dashboard s).1.queueStats = qs
      ∧ (refreshAll gw ms Screen.dashboard s).1.queueJobs = qj
      ∧ (refreshAll gw ms Screen.dashboard s).1.branches = bl.branches
      ∧ (refreshAll gw ms Screen.dashboard s).1.refreshing = false
      ∧ (refreshAll gw ms Screen.dashboard s).1.status = "Refreshed in " ++ toString ms ++ "ms")
    ∧ (∀ (gw : Gateway) (s : AppState) (ms : Nat) (p : Project) (pr : ProtocolRun) (e : ApiError)
      (sd : List StepRun) (red : List Event) (qs : JsonValue)
      (qj : List QueueJob) (bl : BranchList),
      gw.projects = Except.ok [p] →
      gw.protocols p.id = Except.ok [pr] →
      gw.steps pr.id = Except.ok sd →
      gw.events pr.id = Except.error e →
      gw.recentEvents 50 = Except.ok red →
      gw.queueStats = Except.ok qs →
      gw.queueJobs s.jobStatusFilter = Except.ok qj →
      gw.branches p.id = Except.ok bl →
      s.stepFilter = none →
      (refreshAll gw ms Screen.dashboard s).2 =
        [Call.projects, Call.protocols p.id, Call.steps pr.id, Call.events pr.id,
         Call.recentEvents 50, Call.queueStats, Call.queueJobs s.jobStatusFilter,
         Call.branches p.id]
      ∧ (refreshAll gw ms Screen.dashboard s).1.lastError = some (errString e)
      ∧ (refreshAll gw ms Screen.dashboard s).1.projects = [p]
      ∧ (refreshAll gw ms Screen.dashboard s).1.protocols = [pr]
      ∧ (refreshAll gw ms Screen.dashboard s).1.steps = sd
      ∧ (refreshAll gw ms Screen.dashboard s).1.events = s.events
      ∧ (refreshAll gw ms Screen.dashboard s).1.recentEvents = red
      ∧ (refreshAll gw ms Screen.dashboard s).1.queueStats = qs
      ∧ (refreshAll gw ms Screen.dashboard s).1.queueJobs = qj
      ∧ (refreshAll gw ms Screen.dashboard s).1.branches = bl.branches
      ∧ (refreshAll gw ms Screen.dashboard s).1.refreshing = false
      ∧ (refreshAll gw ms Screen.dashboard s).1.status = "Refreshed in " ++ toString ms ++ "ms")
    ∧ (∀ (gw : Gateway) (s : AppState) (ms : Nat) (p : Project) (pr : ProtocolRun) (e : ApiError)
      (sd : List StepRun) (ed : List Event) (qs : JsonValue)
      (qj : List QueueJob) (bl : BranchList),
      gw.projects = Except.ok [p] →
      gw.protocols p.id = Except.ok [pr] →
      gw.steps pr.id = Except.ok sd →
      gw.events pr.id = Except.ok ed →
      gw.recentEvents 50 = Except.error e →
      gw.queueStats = Except.ok qs →
      gw.queueJobs s.jobStatusFilter = Except.ok qj →
      gw.branches p.id = Except.ok bl →
      s.stepFilter = none →
      (refreshAll gw ms Screen.dashboard s).2 =
        [Call.projects, Call.protocols p.id, Call.steps pr.id, Call.events pr.id,
         Call.recentEvents 50, Call.queueStats, Call.queueJobs s.jobStatusFilter,
         Call.branches p.id]
      ∧ (refreshAll gw ms Screen.dashboard s).1.lastError = some (errString e)
      ∧ (refreshAll gw ms Screen.dashboard s).1.projects = [p]
      ∧ (refreshAll gw ms Screen.dashboard s).1.protocols = [pr]
      ∧ (refreshAll gw ms Screen.dashboard s).1.steps = sd
      ∧ (refreshAll gw ms Screen.dashboard s).1.events = ed
      ∧ (refreshAll gw ms Screen.dashboard s).1.recentEvents = s.recentEvents
      ∧ (refreshAll gw ms Screen.dashboard s).1.queueStats = qs
      ∧ (refreshAll gw ms Screen.dashboard s).1.queueJobs = qj
      ∧ (refreshAll gw ms Screen.dashboard s).1.branches = bl.branches
      ∧ (refreshAll gw ms Screen.dashboard s).1.refreshing = false
      ∧ (refreshAll gw ms Screen.dashboard s).1.status = "Refreshed in " ++ toString ms ++ "ms")
    ∧ (∀ (gw : Gateway) (s : AppState) (ms : Nat) (p : Project) (pr : ProtocolRun) (e : ApiError)
      (sd : List StepRun) (ed red : List Event)
      (qj : List QueueJob) (bl : BranchList),
      gw.projects = Except.ok [p] →
      gw.protocols p.id = Except.ok [pr] →
      gw.steps pr.id = Except.ok sd →
      gw.events pr.id = Except.ok ed →
      gw.recentEvents 50 = Except.ok red →
      gw.queueStats = Except.error e →
      gw.queueJobs s.jobStatusFilter = Except.ok qj →
      gw.branches p.id = Except.ok bl →
      s.stepFilter = none →
      (refreshAll gw ms Screen.dashboard s).2 =
        [Call.projects, Call.protocols p.id, Call.steps pr.id, Call.events pr.id,
         Call.recentEvents 50, Call.queueStats, Call.queueJobs s.jobStatusFilter,
         Call.branches p.id]
      ∧ (refreshAll gw ms Screen.dashboard s).1.lastError = some (errString e)
      ∧ (refreshAll gw ms Screen.dashboard s).1.projects = [p]
      ∧ (refreshAll gw ms Screen.dashboard s).1.protocols = [pr]
      ∧ (refreshAll gw ms Screen.dashboard s).1.steps = sd
      ∧ (refreshAll gw ms Screen.dashboard s).1.events = ed
      ∧ (refreshAll gw ms Screen.dashboard s).1.recentEvents = red
      ∧ (refreshAll gw ms Screen.dashboard s).1.queueStats = s.queueStats
      ∧ (refreshAll gw ms Screen.dashboard s).1.queueJobs = qj
      ∧ (refreshAll gw ms Screen.dashboard s).1.branches = bl.branches
      ∧ (refreshAll gw ms Screen.dashboard s).1.refreshing = false
      ∧ (refreshAll gw ms Screen.dashboard s).1.status = "Refreshed in " ++ toString ms ++ "ms")
    ∧ (∀ (gw : Gateway) (s : AppState) (ms : Nat) (p : Project) (pr : ProtocolRun) (e : ApiError)
      (sd : List StepRun) (ed red : List Event) (qs : JsonValue)
      (bl : BranchList),
      gw.projects = Except.ok [p] →
      gw.protocols p.id = Except.ok [pr] →
      gw.steps pr.id = Except.ok sd →
      gw.events pr.id = Except.ok ed →
      gw.recentEvents 50 = Except.ok red →
      gw.queueStats = Except.ok qs →
      gw.queueJobs s.jobStatusFilter = Except.error e →
      gw.branches p.id = Except.ok bl →
      s.stepFilter = none →
      (refreshAll gw ms Screen.dashboard s).2 =
        [Call.projects, Call.protocols p.id, Call.steps pr.id, Call.events pr.id,
         Call.recentEvents 50, Call.queueStats, Call.queueJobs s.jobStatusFilter,
         Call.branches p.id]
      ∧ (refreshAll gw ms Screen.dashboard s).1.lastError = some (errString e)
      ∧ (refreshAll gw ms Screen.dashboard s).1.projects = [p]
      ∧ (refreshAll gw ms Screen.dashboard s).1.protocols = [pr]
      ∧ (refreshAll gw ms Screen.dashboard s).1.steps = sd
      ∧ (refreshAll gw ms Screen.dashboard s).1.events = ed
      ∧ (refreshAll gw ms Screen.dashboard s).1.recentEvents = red
      ∧ (refreshAll gw ms Screen.dashboard s).1.queueStats = qs
      ∧ (refreshAll gw ms Screen.dashboard s).1.queueJobs = s.queueJobs
      ∧ (refreshAll gw ms Screen.dashboard s).1.branches = bl.branches
      ∧ (refreshAll gw ms Screen.dashboard s).1.refreshing = false
      ∧ (refreshAll gw ms Screen.dashboard s).1.status = "Refreshed in " ++ toString ms ++ "ms")
    ∧ (∀ (gw : Gateway) (s : AppState) (ms : Nat) (p : Project) (pr : ProtocolRun) (e : ApiError)
      (sd : List StepRun) (ed red : List Event) (qs : JsonValue)
      (qj : List QueueJob),
      gw.projects = Except.ok [p] →
      gw.protocols p.id = Except.ok [pr] →
      gw.steps pr.id = Except.ok sd →
      gw.events pr.id = Except.ok ed →
      gw.recentEvents 50 = Except.ok red →
      gw.queueStats = Except.ok qs →
      gw.queueJobs s.jobStatusFilter = Except.ok qj →
      gw.branches p.id = Except.error e →
      s.stepFilter = none →
      (refreshAll gw ms Screen.dashboard s).2 =
        [Call.projects, Call.protocols p.id, Call.steps pr.id, Call.events pr.id,
         Call.recentEvents 50, Call.queueStats, Call.queueJobs s.jobStatusFilter,
         Call.branches p.id]
      ∧ (refreshAll gw ms Screen.dashboard s).1.lastError = some (errString e)
      ∧ (refreshAll gw ms Screen.dashboard s).1.projects = [p]
      ∧ (refreshAll gw ms Screen.dashboard s).1.protocols = [pr]
      ∧ (refreshAll gw ms Screen.dashboard s).1.steps = sd
      ∧ (refreshAll gw ms Screen.dashboard s).1.events = ed
      ∧ (refreshAll gw ms Screen.dashboard s).1.recentEvents = red
      ∧ (refreshAll gw ms Screen.dashboard s).1.queueStats = qs
      ∧ (refreshAll gw ms Screen.dashboard s).1.queueJobs = qj
      ∧ (refreshAll gw ms Screen.dashboard s).1.branches = s.branches
      ∧ (refreshAll gw ms Screen.dashboard s).1.refreshing = false
      ∧ (refreshAll gw ms Screen.dashboard s).1.status = "Refreshed in " ++ toString ms ++ "ms") := by
  refine ⟨?_, ?_, ?_, ?_, ?_, ?_, ?_, ?_⟩
  · intro gw s ms p pr e sd ed red qs qj bl h1 h2 h3 h4 h5 h6 h7 h8 h9 h10 h11
    simp [refreshAll, seqS, loadProjects, loadProtocols, loadSteps, loadEvents,
      loadRecentEvents, loadQueue, loadBranches, selectedProjectId,
      selectedProtocolId, setError, resetFirst_one, h1, h2, h3, h4, h5, h6, h7, h8, h9, h10, h11]
  · intro gw s ms p pr e sd ed red qs qj bl h1 h2 h3 h4 h5 h6 h7 h8 h9 h10 h11
    simp [refreshAll, seqS, loadProjects, loadProtocols, loadSteps, loadEvents,
      loadRecentEvents, loadQueue, loadBranches, selectedProjectId,
      selectedProtocolId, setError, resetFirst_one, h1, h2, h3, h4, h5, h6, h7, h8, h9, h10, h11]
  · intro gw s ms p pr e ed red qs qj bl h1 h2 h3 h4 h5 h6 h7 h8
    simp [refreshAll, seqS, loadProjects, loadProtocols, loadSteps, loadEvents,
      loadRecentEvents, loadQueue, loadBranches, selectedProjectId,
      selectedProtocolId, setError, resetFirst_one, h1, h2, h3, h4, h5, h6, h7, h8]
  · intro gw s ms p pr e sd red qs qj bl h1 h2 h3 h4 h5 h6 h7 h8 h9
    simp [refreshAll, seqS, loadProjects, loadProtocols, loadSteps, loadEvents,
      loadRecentEvents, loadQueue, loadBranches, selectedProjectId,
      selectedProtocolId, setError, resetFirst_one, h1, h2, h3, h4, h5, h6, h7, h8, h9]
  · intro gw s ms p pr e sd ed qs qj bl h1 h2 h3 h4 h5 h6 h7 h8 h9
    simp [refreshAll, seqS, loadProjects, loadProtocols, loadSteps, loadEvents,
      loadRecentEvents, loadQueue, loadBranches, selectedProjectId,
      selectedProtocolId, setError, resetFirst_one, h1, h2, h3, h4, h5, h6, h7, h8, h9]
  · intro gw s ms p pr e sd ed red qj bl h1 h2 h3 h4 h5 h6 h7 h8 h9
    simp [refreshAll, seqS, loadProjects, loadProtocols, loadSteps, loadEvents,
      loadRecentEvents, loadQueue, loadBranches, selectedProjectId,
      selectedProtocolId, setError, resetFirst_one, h1, h2, h3, h4, h5, h6, h7, h8, h9]
  · intro gw s ms p pr e sd ed red qs bl h1 h2 h3 h4 h5 h6 h7 h8 h9
    simp [refreshAll, seqS, loadProjects, loadProtocols, loadSteps, loadEvents,
      loadRecentEvents, loadQueue, loadBranches, selectedProjectId,
      selectedProtocolId, setError, resetFirst_one, h1, h2, h3, h4, h5, h6, h7, h8, h9]
  · intro gw s ms p pr e sd ed red qs qj h1 h2 h3 h4 h5 h6 h7 h8 h9
    simp [refreshAll, seqS, loadProjects, loadProtocols, loadSteps, loadEvents,
      loadRecentEvents, loadQueue, loadBranches, selectedProjectId,
      selectedProtocolId, setError, resetFirst_one, h1, h2, h3, h4, h5, h6, h7, h8, h9]

/-- Gateway whose projects fetch fails, used by the C2 witness
(`gwPF` above is the protocols-failure one). -/
def gwFProjects : Gateway := { gwOk with projects := .error eBoom }

/-- Gateway whose steps fetch fails, used by the C2 witness. -/
def gwFSteps : Gateway := { gwOk with steps := fun _ => .error eBoom }

/-- Gateway whose events fetch fails, used by the C2 witness. -/
def gwFEvents : Gateway := { gwOk with events := fun _ => .error eBoom }

/-- Gateway whose recent-events fetch fails, used by the C2 witness. -/
def gwFRecent : Gateway := { gwOk with recentEvents := fun _ => .error eBoom }

/-- Gateway whose queue-stats fetch fails, used by the C2 witness. -/
def gwFStats : Gateway := { gwOk with queueStats := .error eBoom }

/-- Gateway whose queue-jobs fetch fails, used by the C2 witness. -/
def gwFJobs : Gateway := { gwOk with queueJobs := fun _ => .error eBoom }

/-- Gateway whose branches fetch fails, used by the C2 witness. -/
def gwFBranches : Gateway := { gwOk with branches := fun _ => .error eBoom }

theorem C2_refresh_partial_failure_witness :
    ((refreshAll gwFProjects 3 Screen.dashboard stP).2 =
       [Call.projects, Call.protocols pA.id, Call.steps prB.id,
         Call.events prB.id, Call.recentEvents 50, Call.queueStats,
         Call.queueJobs stP.jobStatusFilter, Call.branches pA.id]
     ∧ (refreshAll gwFProjects 3 Screen.dashboard stP).1.lastError = some (errString eBoom))
    ∧ ((refreshAll gwPF 3 Screen.dashboard stP).2 =
       [Call.projects, Call.protocols pA.id, Call.steps prB.id,
         Call.events prB.id, Call.recentEvents 50, Call.queueStats,
         Call.queueJobs stP.jobStatusFilter, Call.branches pA.id]
     ∧ (refreshAll gwPF 3 Screen.dashboard stP).1.lastError = some (errString eBoom))
    ∧ ((refreshAll gwFSteps 3 Screen.dashboard stP).2 =
       [Call.projects, Call.protocols pA.id, Call.steps prB.id,
         Call.events prB.id, Call.recentEvents 50, Call.queueStats,
         Call.queueJobs stP.jobStatusFilter, Call.branches pA.id]
     ∧ (refreshAll gwFSteps 3 Screen.dashboard stP).1.lastError = some (errString eBoom))
    ∧ ((refreshAll gwFEvents 3 Screen.dashboard stP).2 =
       [Call.projects, Call.protocols pA.id, Call.steps prB.id,
         Call.events prB.id, Call.recentEvents 50, Call.queueStats,
         Call.queueJobs stP.jobStatusFilter, Call.branches pA.id]
     ∧ (refreshAll gwFEvents 3 Screen.dashboard stP).1.lastError = some (errString eBoom))
    ∧ ((refreshAll gwFRecent 3 Screen.dashboard stP).2 =
       [Call.projects, Call.protocols pA.id, Call.steps prB.id,
         Call.events prB.id, Call.recentEvents 50, Call.queueStats,
         Call.queueJobs stP.jobStatusFilter, Call.branches pA.id]
     ∧ (refreshAll gwFRecent 3 Screen.dashboard stP).1.lastError = some (errString eBoom))
    ∧ ((refreshAll gwFStats 3 Screen.dashboard stP).2 =
       [Call.projects, Call.protocols pA.id, Call.steps prB.id,
         Call.events prB.id, Call.recentEvents 50, Call.queueStats,
         Call.queueJobs stP.jobStatusFilter, Call.branches pA.id]
     ∧ (refreshAll gwFStats 3 Screen.dashboard stP).1.lastError = some (errString eBoom))
    ∧ ((refreshAll gwFJobs 3 Screen.dashboard stP).2 =
       [Call.projects, Call.protocols pA.id, Call.steps prB.id,
         Call.events prB.id, Call.recentEvents 50, Call.queueStats,
         Call.queueJobs stP.jobStatusFilter, Call.branches pA.id]
     ∧ (refreshAll gwFJobs 3 Screen.dashboard stP).1.lastError = some (errString eBoom))
    ∧ ((refreshAll gwFBranches 3 Screen.dashboard stP).2 =
       [Call.projects, Call.protocols pA.id, Call.steps prB.id,
         Call.events prB.id, Call.recentEvents 50, Call.queueStats,
         Call.queueJobs stP.jobStatusFilter, Call.branches pA.id]
     ∧ (refreshAll gwFBranches 3 Screen.dashboard stP).1.lastError = some (errString eBoom)) :=
  ⟨⟨(C2_refresh_partial_failure.1 gwFProjects stP 3
       pA prB eBoom [mkStep 7 "pending", mkStep 8 "running"] [evE] [evE] (.raw "stats") [{ jobId := some "j1", status := some "queued" }] (⟨["main", "dev"]⟩ : BranchList)
       rfl rfl rfl rfl rfl rfl rfl rfl rfl rfl rfl).1, (C2_refresh_partial_failure.1 gwFProjects stP 3
       pA prB eBoom [mkStep 7 "pending", mkStep 8 "running"] [evE] [evE] (.raw "stats") [{ jobId := some "j1", status := some "queued" }] (⟨["main", "dev"]⟩ : BranchList)
       rfl rfl rfl rfl rfl rfl rfl rfl rfl rfl rfl).2.1⟩,
   ⟨(C2_refresh_partial_failure.2.1 gwPF stP 3
       pA prB eBoom [mkStep 7 "pending", mkStep 8 "running"] [evE] [evE] (.raw "stats") [{ jobId := some "j1", status := some "queued" }] (⟨["main", "dev"]⟩ : BranchList)
       rfl rfl rfl rfl rfl rfl rfl rfl rfl rfl rfl).1, (C2_refresh_partial_failure.2.1 gwPF stP 3
       pA prB eBoom [mkStep 7 "pending", mkStep 8 "running"] [evE] [evE] (.raw "stats") [{ jobId := some "j1", status := some "queued" }] (⟨["main", "dev"]⟩ : BranchList)
       rfl rfl rfl rfl rfl rfl rfl rfl rfl rfl rfl).2.1⟩,
   ⟨(C2_refresh_partial_failure.2.2.1 gwFSteps stP 3
       pA prB eBoom [evE] [evE] (.raw "stats") [{ jobId := some "j1", status := some "queued" }] (⟨["main", "dev"]⟩ : BranchList)
       rfl rfl rfl rfl rfl rfl rfl rfl).1, (C2_refresh_partial_failure.2.2.1 gwFSteps stP 3
       pA prB eBoom [evE] [evE] (.raw "stats") [{ jobId := some "j1", status := some "queued" }] (⟨["main", "dev"]⟩ : BranchList)
       rfl rfl rfl rfl rfl rfl rfl rfl).2.1⟩,
   ⟨(C2_refresh_partial_failure.2.2.2.1 gwFEvents stP 3
       pA prB eBoom [mkStep 7 "pending", mkStep 8 "running"] [evE] (.raw "stats") [{ jobId := some "j1", status := some "queued" }] (⟨["main", "dev"]⟩ : BranchList)
       rfl rfl rfl rfl rfl rfl rfl rfl rfl).1, (C2_refresh_partial_failure.2.2.2.1 gwFEvents stP 3
       pA prB eBoom [mkStep 7 "pending", mkStep 8 "running"] [evE] (.raw "stats") [{ jobId := some "j1", status := some "queued" }] (⟨["main", "dev"]⟩ : BranchList)
       rfl rfl rfl rfl rfl rfl rfl rfl rfl).2.1⟩,
   ⟨(C2_refresh_partial_failure.2.2.2.2.1 gwFRecent stP 3
       pA prB eBoom [mkStep 7 "pending", mkStep 8 "running"] [evE] (.raw "stats") [{ jobId := some "j1", status := some "queued" }] (⟨["main", "dev"]⟩ : BranchList)
       rfl rfl rfl rfl rfl rfl rfl rfl rfl).1, (C2_refresh_partial_failure.2.2.2.2.1 gwFRecent stP 3
       pA prB eBoom [mkStep 7 "pending", mkStep 8 "running"] [evE] (.raw "stats") [{ jobId := some "j1", status := some "queued" }] (⟨["main", "dev"]⟩ : BranchList)
       rfl rfl rfl rfl rfl rfl rfl rfl rfl).2.1⟩,
   ⟨(C2_refresh_partial_failure.2.2.2.2.2.1 gwFStats stP 3
       pA prB eBoom [mkStep 7 "pending", mkStep 8 "running"] [evE] [evE] [{ jobId := some "j1", status := some "queued" }] (⟨["main", "dev"]⟩ : BranchList)
       rfl rfl rfl rfl rfl rfl rfl rfl rfl).1, (C2_refresh_partial_failure.2.2.2.2.2.1 gwFStats stP 3
       pA prB eBoom [mkStep 7 "pending", mkStep 8 "running"] [evE] [evE] [{ jobId := some "j1", status := some "queued" }] (⟨["main", "dev"]⟩ : BranchList)
       rfl rfl rfl rfl rfl rfl rfl rfl rfl).2.1⟩,
   ⟨(C2_refresh_partial_failure.2.2.2.2.2.2.1 gwFJobs stP 3
       pA prB eBoom [mkStep 7 "pending", mkStep 8 "running"] [evE] [evE] (.raw "stats") (⟨["main", "dev"]⟩ : BranchList)
       rfl rfl rfl rfl rfl rfl rfl rfl rfl).1, (C2_refresh_partial_failure.2.2.2.2.2.2.1 gwFJobs stP 3
       pA prB eBoom [mkStep 7 "pending", mkStep 8 "running"] [evE] [evE] (.raw "stats") (⟨["main", "dev"]⟩ : BranchList)
       rfl rfl rfl rfl rfl rfl rfl rfl rfl).2.1⟩,
   ⟨(C2_refresh_partial_failure.2.2.2.2.2.2.2 gwFBranches stP 3
       pA prB eBoom [mkStep 7 "pending", mkStep 8 "running"] [evE] [evE] (.raw "stats") [{ jobId := some "j1", status := some "queued" }]
       rfl rfl rfl rfl rfl rfl rfl rfl rfl).1, (C2_refresh_partial_failure.2.2.2.2.2.2.2 gwFBranches stP 3
       pA prB eBoom [mkStep 7 "pending", mkStep 8 "running"] [evE] [evE] (.raw "stats") [{ jobId := some "j1", status := some "queued" }]
       rfl rfl rfl rfl rfl rfl rfl rfl rfl).2.1⟩⟩

end Tui